import Mathlib

/-!
Shallow embedding of the OlegChuev/screensaver core (Go) in Lean 4.

Wave model: src/internal/wave/surface.go.
Renderer: src/internal/renderer/renderer.go.

Go float64 arithmetic is idealised as real arithmetic; Go's `int` becomes ℤ
(with ℕ for grid dimensions, which are never negative in the program);
Go's truncating float-to-int conversion is modelled by `goTrunc`.
Division by zero in ℝ yields 0 where Go would produce ±Inf/NaN; the claims
settled here do not hinge on those degenerate branches except where noted.
-/

namespace Screensaver

/-- Largest finite float64, the sentinel `math.MaxFloat64` used by the code. -/
def maxFloat64 : ℝ := 1.7976931348623157e308

/-- Go's float-to-int conversion: truncation toward zero. -/
noncomputable def goTrunc (x : ℝ) : ℤ :=
  if x < 0 then ⌈x⌉ else ⌊x⌋

/-- Go's `math.Mod(x, m)`: remainder with the sign of x, `x - m*trunc(x/m)`. -/
noncomputable def goMod (x m : ℝ) : ℝ :=
  x - m * (goTrunc (x / m) : ℝ)

/-! ## Wave model (src/internal/wave/surface.go) -/

/-- `Config` from surface.go. `WaveCount` is a Go `int`, kept as ℤ. -/
structure Config where
  GridWidth : ℕ
  GridDepth : ℕ
  ParticleDensity : ℝ
  WaveCount : ℤ

/-- `DefaultConfig` from surface.go. -/
def DefaultConfig : Config :=
  { GridWidth := 80, GridDepth := 60, ParticleDensity := 0.3, WaveCount := 3 }

/-- `WaveParams` from surface.go: one Gerstner wave component. -/
structure WaveParams where
  Amplitude : ℝ
  Wavelength : ℝ
  Speed : ℝ
  Direction : ℝ × ℝ
  Steepness : ℝ

/-- The Go zero value of `WaveParams`. -/
instance : Inhabited WaveParams := ⟨⟨0, 0, 0, (0, 0), 0⟩⟩

/-- `Point3D` from surface.go. -/
structure Point3D where
  X : ℝ
  Y : ℝ
  Z : ℝ

/-- The Go zero value of `Point3D`. -/
instance : Inhabited Point3D := ⟨⟨0, 0, 0⟩⟩

/-- `Particle` from surface.go. -/
structure Particle where
  Pos : Point3D
  Velocity : ℝ

/-- `Wave` from surface.go. -/
structure Wave where
  config : Config
  Particles : List Particle
  GridPoints : List (List Point3D)
  waves : List WaveParams
  MinZ : ℝ
  MaxZ : ℝ

/-- First wave component assigned in `NewWave`. -/
def wave0 : WaveParams :=
  { Amplitude := 0.15, Wavelength := 1.5, Speed := 0.8
    Direction := (1.0, 0.3), Steepness := 0.6 }

/-- Second wave component assigned in `NewWave`. -/
def wave1 : WaveParams :=
  { Amplitude := 0.08, Wavelength := 0.8, Speed := 1.2
    Direction := (0.7, -0.5), Steepness := 0.4 }

/-- Third wave component assigned in `NewWave`. -/
def wave2 : WaveParams :=
  { Amplitude := 0.05, Wavelength := 0.4, Speed := 1.6
    Direction := (-0.3, 0.8), Steepness := 0.3 }

/-- The direction-normalisation loop body of `NewWave`:
divide both direction components by the Euclidean length. -/
noncomputable def normalizeDir (p : WaveParams) : WaveParams :=
  let len := Real.sqrt (p.Direction.1 * p.Direction.1 + p.Direction.2 * p.Direction.2)
  { p with Direction := (p.Direction.1 / len, p.Direction.2 / len) }

/-- `make([]WaveParams, n)` followed by the three indexed assignments of
`NewWave` (ignoring the out-of-range panic, which `NewWaveOpt` models). -/
def initWaves (n : ℕ) : List WaveParams :=
  (((List.replicate n (default : WaveParams)).set 0 wave0).set 1 wave1).set 2 wave2

/-- `NewWave` from surface.go as a total function (defined on the
configurations where the Go code returns normally; see `NewWaveOpt`). -/
noncomputable def NewWave (cfg : Config) : Wave :=
  { config := cfg
    Particles := []
    GridPoints := List.replicate cfg.GridDepth (List.replicate cfg.GridWidth (default : Point3D))
    waves := (initWaves cfg.WaveCount.toNat).map normalizeDir
    MinZ := 0
    MaxZ := 0 }

/-- Go slice indexed assignment `l[i] = a`: panics (here: `none`) when the
index is out of range. -/
def setChecked {α : Type} (l : List α) (i : ℕ) (a : α) : Option (List α) :=
  if i < l.length then some (l.set i a) else none

/-- `NewWave` with the panics modelled: `make` with a negative length and
the unconditional assignments `w.waves[0..2] = …` abort construction. -/
noncomputable def NewWaveOpt (cfg : Config) : Option Wave :=
  if cfg.WaveCount < 0 then none
  else do
    let a ← setChecked (List.replicate cfg.WaveCount.toNat (default : WaveParams)) 0 wave0
    let b ← setChecked a 1 wave1
    let c ← setChecked b 2 wave2
    some { config := cfg
           Particles := []
           GridPoints := List.replicate cfg.GridDepth (List.replicate cfg.GridWidth (default : Point3D))
           waves := c.map normalizeDir
           MinZ := 0
           MaxZ := 0 }

/-- Loop body of `gerstnerWave`: accumulate one component's displacement.
`n` is `len(w.waves)`, constant during the loop. -/
noncomputable def gerstnerStep (n : ℕ) (x0 y0 t : ℝ) (acc : ℝ × ℝ × ℝ)
    (wp : WaveParams) : ℝ × ℝ × ℝ :=
  let k := 2 * Real.pi / wp.Wavelength
  let c := wp.Speed
  let q := wp.Steepness / (k * wp.Amplitude * (n : ℝ))
  let dx := wp.Direction.1
  let dy := wp.Direction.2
  let phase := k * (dx * x0 + dy * y0) - c * t
  (acc.1 + q * wp.Amplitude * dx * Real.cos phase,
   acc.2.1 + q * wp.Amplitude * dy * Real.cos phase,
   acc.2.2 + wp.Amplitude * Real.sin phase)

/-- `gerstnerWave` from surface.go: fold the per-component displacement
over the wave list, starting from `(x0, y0, 0)`. -/
noncomputable def gerstnerWave (waves : List WaveParams) (x0 y0 t : ℝ) : ℝ × ℝ × ℝ :=
  waves.foldl (gerstnerStep waves.length x0 y0 t) (x0, y0, 0)

/-- The grid sample computed by `Update` at row `depth`, column `width`:
map indices to `[-1, 1]` and apply the Gerstner displacement. -/
noncomputable def samplePoint (cfg : Config) (waves : List WaveParams) (t : ℝ)
    (depth width : ℕ) : Point3D :=
  let x0 := ((width : ℝ) / (((cfg.GridWidth : ℤ) - 1 : ℤ) : ℝ)) * 2.0 - 1.0
  let y0 := ((depth : ℝ) / (((cfg.GridDepth : ℤ) - 1 : ℤ) : ℝ)) * 2.0 - 1.0
  let r := gerstnerWave waves x0 y0 t
  { X := r.1, Y := r.2.1, Z := r.2.2 }

/-- One iteration of `Update`'s grid loop: write the sample into the grid
in place and fold the running min/max of z. -/
noncomputable def updateCell (cfg : Config) (waves : List WaveParams) (t : ℝ)
    (st : List (List Point3D) × ℝ × ℝ) (dw : ℕ × ℕ) : List (List Point3D) × ℝ × ℝ :=
  let p := samplePoint cfg waves t dw.1 dw.2
  let grid := st.1.set dw.1 ((st.1.getD dw.1 []).set dw.2 p)
  let minZ := if p.Z < st.2.1 then p.Z else st.2.1
  let maxZ := if p.Z > st.2.2 then p.Z else st.2.2
  (grid, minZ, maxZ)

/-- Row-major index pairs of `Update`'s nested grid loops. -/
def gridIndices (d w : ℕ) : List (ℕ × ℕ) :=
  (List.range d).flatMap (fun i => (List.range w).map (fun j => (i, j)))

/-- Index pairs of `Update`'s particle loops, stride 3 on both axes. -/
def particleIndices (d w : ℕ) : List (ℕ × ℕ) :=
  (List.range' 0 ((d + 2) / 3) 3).flatMap
    (fun i => (List.range' 0 ((w + 2) / 3) 3).map (fun j => (i, j)))

/-- Particle emission test and record of `Update`'s second loop: the
density filter `math.Mod(width+depth, 1/density) < 1`, then the peak test
`p.Z > (MaxZ-MinZ)*0.6 + MinZ`. -/
noncomputable def emitParticle (cfg : Config) (grid : List (List Point3D))
    (minZ maxZ : ℝ) (dw : ℕ × ℕ) : Option Particle :=
  if goMod ((dw.2 : ℝ) + (dw.1 : ℝ)) (1.0 / cfg.ParticleDensity) < 1.0 then
    let p := (grid.getD dw.1 []).getD dw.2 (default : Point3D)
    if p.Z > (maxZ - minZ) * 0.6 + minZ then
      some { Pos := p, Velocity := p.Z }
    else none
  else none

/-- `Update` from surface.go: overwrite every grid cell with the Gerstner
sample, track running min/max of z (seeded with `±math.MaxFloat64`), then
rebuild the particle list from the fresh grid. -/
noncomputable def Update (s : Wave) (t : ℝ) : Wave :=
  let cfg := s.config
  let res := (gridIndices cfg.GridDepth cfg.GridWidth).foldl
    (updateCell cfg s.waves t) (s.GridPoints, maxFloat64, -maxFloat64)
  let particles := (particleIndices cfg.GridDepth cfg.GridWidth).filterMap
    (emitParticle cfg res.1 res.2.1 res.2.2)
  { s with GridPoints := res.1, Particles := particles, MinZ := res.2.1, MaxZ := res.2.2 }

/-- `Size` from surface.go: `(GridDepth, GridWidth)`. -/
def Wave.Size (w : Wave) : ℕ × ℕ :=
  (w.config.GridDepth, w.config.GridWidth)

/-- The z component of the sample at an index pair (analysis helper). -/
noncomputable def sampleZ (cfg : Config) (waves : List WaveParams) (t : ℝ)
    (dw : ℕ × ℕ) : ℝ :=
  (samplePoint cfg waves t dw.1 dw.2).Z

/-- The code's running-minimum fold `if z < m then z else m` (analysis
helper naming the min/max component of `Update`'s loop). -/
noncomputable def runMin (init : ℝ) (l : List ℝ) : ℝ :=
  l.foldl (fun m z => if z < m then z else m) init

/-- The code's running-maximum fold `if z > m then z else m`. -/
noncomputable def runMax (init : ℝ) (l : List ℝ) : ℝ :=
  l.foldl (fun m z => if z > m then z else m) init

/-- The grid `Update` produces: row d, column j holds the sample there
(analysis helper; `Update` is proved to overwrite the old grid into this). -/
noncomputable def gridFor (cfg : Config) (waves : List WaveParams) (t : ℝ) :
    List (List Point3D) :=
  (List.range cfg.GridDepth).map
    (fun d => (List.range cfg.GridWidth).map (fun j => samplePoint cfg waves t d j))

/-! ## NaN-aware model of the degenerate float paths

The real-number idealisation maps division by zero to 0, but Go's float64
gives NaN for `0.0/0.0` (surface.go line 117 when `GridWidth = 1` or line
118 when `GridDepth = 1`), and NaN poisons every later operation while
every comparison with NaN is false. The fragment below re-traces
`gerstnerWave` over `Option ℝ`, with `none` playing NaN, to witness what
the program really does on those configurations. -/

/-- NaN-aware addition: `none` is NaN and propagates. -/
def addF : Option ℝ → Option ℝ → Option ℝ
  | some x, some y => some (x + y)
  | _, _ => none

/-- NaN-aware subtraction. -/
def subF : Option ℝ → Option ℝ → Option ℝ
  | some x, some y => some (x - y)
  | _, _ => none

/-- NaN-aware multiplication. -/
def mulF : Option ℝ → Option ℝ → Option ℝ
  | some x, some y => some (x * y)
  | _, _ => none

/-- NaN-aware division: `0.0/0.0` is NaN. (Go yields ±Inf for a nonzero
dividend over zero; no such division occurs on the traces proved below —
every zero divisor there has a zero dividend — so that unreached case is
conservatively mapped to `none` as well.) -/
noncomputable def divF : Option ℝ → Option ℝ → Option ℝ
  | some x, some y => if y = 0 then none else some (x / y)
  | _, _ => none

/-- NaN-aware sine. -/
noncomputable def sinF : Option ℝ → Option ℝ
  | some x => some (Real.sin x)
  | none => none

/-- NaN-aware cosine. -/
noncomputable def cosF : Option ℝ → Option ℝ
  | some x => some (Real.cos x)
  | none => none

/-- Go float `<`: false whenever either side is NaN. -/
noncomputable def ltF : Option ℝ → Option ℝ → Bool
  | some x, some y => decide (x < y)
  | _, _ => false

/-- Go float `<=`: false whenever either side is NaN. -/
noncomputable def leF : Option ℝ → Option ℝ → Bool
  | some x, some y => decide (x ≤ y)
  | _, _ => false

/-- `gerstnerWave`'s loop body over NaN-aware floats (wave parameters are
finite constants, so they enter as `some`). -/
noncomputable def gerstnerStepF (n : ℕ) (x0 y0 t : Option ℝ)
    (acc : Option ℝ × Option ℝ × Option ℝ) (wp : WaveParams) :
    Option ℝ × Option ℝ × Option ℝ :=
  let k := divF (some (2 * Real.pi)) (some wp.Wavelength)
  let q := divF (some wp.Steepness) (mulF (mulF k (some wp.Amplitude)) (some (n : ℝ)))
  let phase := subF (mulF k (addF (mulF (some wp.Direction.1) x0)
    (mulF (some wp.Direction.2) y0))) (mulF (some wp.Speed) t)
  (addF acc.1 (mulF (mulF (mulF q (some wp.Amplitude)) (some wp.Direction.1)) (cosF phase)),
   addF acc.2.1 (mulF (mulF (mulF q (some wp.Amplitude)) (some wp.Direction.2)) (cosF phase)),
   addF acc.2.2 (mulF (some wp.Amplitude) (sinF phase)))

/-- `gerstnerWave` over NaN-aware floats. -/
noncomputable def gerstnerWaveF (waves : List WaveParams) (x0 y0 t : Option ℝ) :
    Option ℝ × Option ℝ × Option ℝ :=
  waves.foldl (gerstnerStepF waves.length x0 y0 t) (x0, y0, some 0)

/-- The z component of `Update`'s sample over NaN-aware floats, with the
index-to-coordinate divisions of surface.go lines 117-118 kept fallible. -/
noncomputable def samplePointZF (cfg : Config) (waves : List WaveParams) (t : ℝ)
    (depth width : ℕ) : Option ℝ :=
  let x0 := subF (mulF (divF (some (width : ℝ))
    (some (((cfg.GridWidth : ℤ) - 1 : ℤ) : ℝ))) (some 2.0)) (some 1.0)
  let y0 := subF (mulF (divF (some (depth : ℝ))
    (some (((cfg.GridDepth : ℤ) - 1 : ℤ) : ℝ))) (some 2.0)) (some 1.0)
  (gerstnerWaveF waves x0 y0 (some t)).2.2

/-- Well-formedness maintained for every `Wave` the program constructs:
the grid has exactly the configured dimensions. -/
def wfWave (s : Wave) : Prop :=
  s.GridPoints.length = s.config.GridDepth ∧
    ∀ row ∈ s.GridPoints, row.length = s.config.GridWidth

/-! ## Renderer (src/internal/renderer/renderer.go) -/

/-- A `tcell.Style`, modelled by its foreground colour: the zero value
`StyleDefault`, or `StyleDefault.Foreground(NewRGBColor r g b)`. -/
inductive Style : Type
  | dflt : Style
  | rgb (r g b : ℤ) : Style

/-- `cell` from renderer.go. -/
structure Cell where
  char : Char
  style : Style
  depth : ℝ
  set : Bool

/-- The Go zero value of `cell`. -/
def zeroCell : Cell :=
  { char := Char.ofNat 0, style := Style.dflt, depth := 0, set := false }

/-- The sentinel `cell{depth: -math.MaxFloat64}` written by `Clear`. -/
def clearedCell : Cell :=
  { char := Char.ofNat 0, style := Style.dflt, depth := -maxFloat64, set := false }

/-- `Renderer` from renderer.go (the `tcell.Screen` handle is external and
omitted). -/
structure Renderer where
  width : ℤ
  height : ℤ
  buffer : List (List Cell)
  centerX : ℝ
  centerY : ℝ

/-- `shadeChars` from renderer.go. -/
def shadeChars : List Char := [' ', '.', ':', '-', '=', '+', '*', '#', '%', '@']

/-- `blockChars` from renderer.go. -/
def blockChars : List Char := ['░', '▒', '▓', '█']

/-- `scaleXFactor` constant. -/
def scaleXFactor : ℝ := 0.95

/-- `scaleYFactor` constant. -/
def scaleYFactor : ℝ := 0.7

/-- `perspectiveY` constant. -/
def perspectiveY : ℝ := 0.4

/-- `depthZFactor` constant. -/
def depthZFactor : ℝ := 0.3

/-- `initBuffer`: height rows of width zero cells. -/
def initBuffer (w h : ℤ) : List (List Cell) :=
  List.replicate h.toNat (List.replicate w.toNat zeroCell)

/-- `NewRenderer` for a screen reporting size `(w, h)`. -/
noncomputable def NewRenderer (w h : ℤ) : Renderer :=
  { width := w, height := h, buffer := initBuffer w h
    centerX := (w : ℝ) / 2, centerY := (h : ℝ) / 2 }

/-- `Clear` from renderer.go: every existing cell is reset to the
`depth = -math.MaxFloat64` sentinel. -/
def Renderer.Clear (r : Renderer) : Renderer :=
  { r with buffer := r.buffer.map (fun row => row.map (fun _ => clearedCell)) }

/-- The read `r.buffer[y][x]` (total, with the Go zero value as default;
the program only reads in bounds). -/
def readCell (r : Renderer) (x y : ℤ) : Cell :=
  (r.buffer.getD y.toNat []).getD x.toNat zeroCell

/-- `setCell` from renderer.go: silently drop out-of-bounds writes, else
replace the cell only when the new depth strictly exceeds the stored one. -/
noncomputable def setCell (r : Renderer) (x y : ℤ) (char : Char) (depth : ℝ)
    (style : Style) : Renderer :=
  if x < 0 ∨ r.width ≤ x ∨ y < 0 ∨ r.height ≤ y then r
  else if depth > (readCell r x y).depth then
    let newRow := (r.buffer.getD y.toNat []).set x.toNat
      { char := char, style := style, depth := depth, set := true }
    { r with buffer := r.buffer.set y.toNat newRow }
  else r

/-- A sequence of `setCell` writes at one position within a tick. -/
noncomputable def applyWrites (r : Renderer) (x y : ℤ)
    (ws : List (Char × ℝ × Style)) : Renderer :=
  ws.foldl (fun acc w => setCell acc x y w.1 w.2.1 w.2.2) r

/-- `project3D` from renderer.go. -/
noncomputable def project3D (r : Renderer) (p : Point3D) : ℤ × ℤ × ℝ :=
  let scaleX := (r.width : ℝ) * scaleXFactor
  let scaleY := (r.height : ℝ) * scaleYFactor
  let screenX := goTrunc (r.centerX + p.X * scaleX)
  let screenY := goTrunc (r.centerY - p.Z * scaleY - p.Y * scaleY * perspectiveY)
  let depth := p.Y + p.Z * depthZFactor
  (screenX, screenY, depth)

/-- The clamped palette index computed inside `mapToChar`:
`idx := int(value*(n-1))`, clamped into `[0, n-1]`. -/
noncomputable def mapCharIdx (value : ℝ) (n : ℤ) : ℤ :=
  let idx := goTrunc (value * ((n - 1 : ℤ) : ℝ))
  let idx2 := if idx < 0 then 0 else idx
  if n ≤ idx2 then n - 1 else idx2

/-- `mapToChar` from renderer.go. -/
noncomputable def mapToChar (value : ℝ) (chars : List Char) : Char :=
  chars.getD (mapCharIdx value chars.length).toNat ' '

/-- `getShadeChar` from renderer.go (the receiver is unused). -/
noncomputable def getShadeChar (normalizedZ layerFactor : ℝ) : Char :=
  mapToChar (normalizedZ * 0.7 + layerFactor * 0.3) shadeChars

/-- `getBlockChar` from renderer.go. -/
noncomputable def getBlockChar (normalizedZ layerFactor : ℝ) : Char :=
  mapToChar (normalizedZ * 0.6 + layerFactor * 0.4) blockChars

/-- `colorStop` from renderer.go. -/
structure ColorStop where
  threshold : ℝ
  r : ℤ
  g : ℤ
  b : ℤ

/-- `colorGradient` from renderer.go. -/
def colorGradient : List ColorStop :=
  [⟨0.15, 30, 50, 120⟩, ⟨0.30, 50, 80, 160⟩, ⟨0.45, 70, 120, 200⟩,
   ⟨0.60, 100, 160, 220⟩, ⟨0.75, 140, 200, 235⟩, ⟨0.90, 180, 225, 245⟩,
   ⟨2.00, 220, 245, 255⟩]

/-- The gradient walk of `getStyle`: the first stop whose threshold the
blended value is below. -/
noncomputable def findStop : List ColorStop → ℝ → Option ColorStop
  | [], _ => none
  | s :: rest, t => if t < s.threshold then some s else findStop rest t

/-- Index of the stop `findStop` selects (= list length when none match). -/
noncomputable def stopIndex : List ColorStop → ℝ → ℕ
  | [], _ => 0
  | s :: rest, t => if t < s.threshold then 0 else stopIndex rest t + 1

/-- The body of `getStyle` applied to the blended value
`t = normalizedZ*0.6 + layerFactor*0.4`: walk the gradient, falling back
to the last stop. -/
noncomputable def getStyleFromT (t : ℝ) : Style :=
  match findStop colorGradient t with
  | some s => Style.rgb s.r s.g s.b
  | none =>
    let last := colorGradient.getD (colorGradient.length - 1) ⟨2.00, 220, 245, 255⟩
    Style.rgb last.r last.g last.b

/-- `getStyle` from renderer.go. -/
noncomputable def getStyle (normalizedZ layerFactor : ℝ) : Style :=
  getStyleFromT (normalizedZ * 0.6 + layerFactor * 0.4)

/-- The loop of `drawShadedLine`, fuelled by the code's own step cap
`maxSteps`. Returns the buffer and the number of cells written. -/
noncomputable def drawLineLoop (x2 y2 dx dy sx sy : ℤ) (lineChar : Char)
    (depth : ℝ) (style : Style) :
    ℕ → ℤ → ℤ → ℤ → Renderer → Renderer × ℕ
  | 0, _, _, _, r => (r, 0)
  | fuel + 1, x, y, err, r =>
    let r1 := setCell r x y lineChar depth style
    if x = x2 ∧ y = y2 then (r1, 1)
    else
      let e2 := 2 * err
      let errA := if e2 > -dy then err - dy else err
      let xA := if e2 > -dy then x + sx else x
      let errB := if e2 < dx then errA + dx else errA
      let yA := if e2 < dx then y + sy else y
      let rec2 := drawLineLoop x2 y2 dx dy sx sy lineChar depth style fuel xA yA errB r1
      (rec2.1, rec2.2 + 1)

/-- `drawShadedLine` from renderer.go; the second component counts the
`setCell` calls performed. -/
noncomputable def drawShadedLine (r : Renderer) (x1 y1 x2 y2 : ℤ)
    (depth normalizedZ layerFactor : ℝ) (style : Style) : Renderer × ℕ :=
  let dx := |x2 - x1|
  let dy := |y2 - y1|
  let sx : ℤ := if x1 > x2 then -1 else 1
  let sy : ℤ := if y1 > y2 then -1 else 1
  let err := dx - dy
  let lineChar := if dy > dx then '|' else getShadeChar normalizedZ layerFactor
  drawLineLoop x2 y2 dx dy sx sy lineChar depth style (dx + dy + 1).toNat x1 y1 err r

/-- `drawVerticalFill` from renderer.go: the loop variable `y` starts at
`y1` and advances by `sy` each of the `dy+1` iterations, so the i-th write
is at `y1 + sy*i`. (`x2` is passed but unused, as in the source.) -/
noncomputable def drawVerticalFill (r : Renderer) (x1 y1 x2 y2 : ℤ)
    (depth normalizedZ layerFactor : ℝ) (style : Style) : Renderer :=
  if y1 = y2 then r
  else
    let _ := x2
    let dy0 := y2 - y1
    let sy : ℤ := if dy0 < 0 then -1 else 1
    let dy := |dy0|
    let char := getBlockChar normalizedZ layerFactor
    (List.range (dy.toNat + 1)).foldl
      (fun acc i => setCell acc x1 (y1 + sy * (i : ℤ)) char depth style) r

/-- `renderWaveSegment` from renderer.go, over the Gerstner `Wave`'s grid
(the source field is named `Points` in the ribbon variant and `GridPoints`
in the Gerstner variant shipped under src). -/
noncomputable def renderWaveSegment (r : Renderer) (w : Wave) (layer i : ℕ)
    (layerFactor minZ zRange : ℝ) : Renderer :=
  let numLayers := w.Size.1
  let numPoints := w.Size.2
  let p1 := (w.GridPoints.getD layer []).getD i (default : Point3D)
  let pr1 := project3D r p1
  let x1 := pr1.1
  let y1 := pr1.2.1
  let d1 := pr1.2.2
  let normalizedZ := (p1.Z - minZ) / zRange
  let char := getShadeChar normalizedZ layerFactor
  let style := getStyle normalizedZ layerFactor
  let r1 :=
    if i < numPoints - 1 then
      let p2 := (w.GridPoints.getD layer []).getD (i + 1) (default : Point3D)
      let pr2 := project3D r p2
      let avgDepth := (d1 + pr2.2.2) / 2
      let avgZ := ((p1.Z - minZ) / zRange + (p2.Z - minZ) / zRange) / 2
      (drawShadedLine r x1 y1 pr2.1 pr2.2.1 avgDepth avgZ layerFactor style).1
    else r
  let r2 :=
    if layer < numLayers - 1 then
      let p3 := (w.GridPoints.getD (layer + 1) []).getD i (default : Point3D)
      let pr3 := project3D r p3
      let avgDepth := (d1 + pr3.2.2) / 2
      drawVerticalFill r1 x1 y1 pr3.1 pr3.2.1 avgDepth normalizedZ layerFactor style
    else r1
  setCell r2 x1 y1 char d1 style

/-- `RenderWave` from renderer.go: guard the zero height range, then walk
the grid back to front, rendering every segment. -/
noncomputable def RenderWave (r : Renderer) (w : Wave) : Renderer :=
  let numLayers := w.Size.1
  let numPoints := w.Size.2
  let zRange0 := w.MaxZ - w.MinZ
  let zRange := if zRange0 = 0 then 1 else zRange0
  (List.range numLayers).foldl
    (fun acc (layer : ℕ) =>
      let layerFactor := (layer : ℝ) / (((numLayers : ℤ) - 1 : ℤ) : ℝ)
      (List.range numPoints).foldl
        (fun acc2 i => renderWaveSegment acc2 w layer i layerFactor w.MinZ zRange)
        acc)
    r

/-- Modelled from the spec: the dedicated particle glyph ("a bullet
character") of the Gerstner-variant renderer, which is absent from the
renderer shipped under src (a ribbon-variant renderer with no particle
pass). -/
def particleChar : Char := '•'

/-- Modelled from the spec: the "fixed bright color" particles are drawn
with in the Gerstner-variant renderer, absent from src. -/
def particleStyle : Style := Style.rgb 255 255 255

/-- Modelled from the spec: "each particle is projected and written with a
fixed bright color and a dedicated glyph …, subject to the same depth test
as everything else" — one particle write through the ordinary `setCell`. -/
noncomputable def renderParticle (r : Renderer) (p : Particle) : Renderer :=
  let pr := project3D r p.Pos
  setCell r pr.1 pr.2.1 particleChar pr.2.2 particleStyle

/-- Modelled from the spec: the particle pass of the Gerstner-variant
renderer, writing every particle in order. -/
noncomputable def renderParticles (r : Renderer) (ps : List Particle) : Renderer :=
  ps.foldl renderParticle r

/-- Modelled from the spec: the Gerstner-variant frame composition,
"after all grid cells, emit particles on top" — the grid pass (the shipped
segment renderer over the Gerstner grid) followed by the particle pass. -/
noncomputable def RenderGerstnerWave (r : Renderer) (w : Wave) : Renderer :=
  renderParticles (RenderWave r w) w.Particles

/-- Well-formedness maintained for every `Renderer` the program
constructs: the buffer has exactly `height` rows of `width` cells. -/
def wfRenderer (r : Renderer) : Prop :=
  r.buffer.length = r.height.toNat ∧ ∀ row ∈ r.buffer, row.length = r.width.toNat

/-! ## Helper lemmas -/

theorem getD_set_self {α : Type} (l : List α) (i : ℕ) (a d : α) (h : i < l.length) :
    (l.set i a).getD i d = a := by
  simp [List.getD_eq_getElem?_getD, List.getElem?_set_self', h]

theorem getD_set_ne {α : Type} (l : List α) (i j : ℕ) (a d : α) (h : i ≠ j) :
    (l.set i a).getD j d = l.getD j d := by
  simp [List.getD_eq_getElem?_getD, List.getElem?_set_ne h]

theorem setCell_width (r : Renderer) (x y : ℤ) (c : Char) (d : ℝ) (s : Style) :
    (setCell r x y c d s).width = r.width := by
  unfold setCell; split_ifs <;> rfl

theorem setCell_height (r : Renderer) (x y : ℤ) (c : Char) (d : ℝ) (s : Style) :
    (setCell r x y c d s).height = r.height := by
  unfold setCell; split_ifs <;> rfl

theorem setCell_wf (r : Renderer) (x y : ℤ) (c : Char) (d : ℝ) (s : Style)
    (hw : wfRenderer r) : wfRenderer (setCell r x y c d s) := by
  unfold setCell
  split_ifs with h1 h2
  · exact hw
  · refine ⟨?_, ?_⟩
    · simpa [List.length_set, setCell] using hw.1
    · intro row hrow
      rcases List.mem_or_eq_of_mem_set hrow with h | h
      · exact hw.2 row h
      · subst h
        rw [List.length_set]
        rcases Nat.lt_or_ge y.toNat r.buffer.length with hy | hy
        · exact hw.2 _ (List.getD_eq_getElem r.buffer [] hy ▸ List.getElem_mem hy)
        · simp [List.getD_eq_default _ _ hy]
          rcases hw.2 with _
          have : ¬ (y < r.height) := by
            intro hlt
            push_neg at h1
            have := hw.1
            omega
          push_neg at h1
          exact absurd h1.2.2.2 (by omega)
  · exact hw

/-- In-bounds read after an in-bounds `setCell` at the same position:
the depth test decides whether the new cell replaces the old one. -/
theorem readCell_setCell (r : Renderer) (x y : ℤ) (c : Char) (d : ℝ) (s : Style)
    (hw : wfRenderer r) (hx0 : 0 ≤ x) (hxw : x < r.width) (hy0 : 0 ≤ y) (hyh : y < r.height) :
    readCell (setCell r x y c d s) x y =
      if d > (readCell r x y).depth then
        { char := c, style := s, depth := d, set := true }
      else readCell r x y := by
  have hyl : y.toNat < r.buffer.length := by rw [hw.1]; omega
  have hrowmem : r.buffer.getD y.toNat [] ∈ r.buffer := by
    rw [List.getD_eq_getElem r.buffer [] hyl]; exact List.getElem_mem hyl
  have hxl : x.toNat < (r.buffer.getD y.toNat []).length := by
    rw [hw.2 _ hrowmem]; omega
  unfold setCell
  rw [if_neg (by push_neg; omega)]
  split_ifs with hd
  · unfold readCell
    simp only
    rw [getD_set_self _ _ _ _ hyl, getD_set_self _ _ _ _ hxl]
  · rfl

/-- Out-of-bounds `setCell` is the identity (helper shared by claims). -/
theorem setCell_oob (r : Renderer) (x y : ℤ) (c : Char) (d : ℝ) (s : Style)
    (h : x < 0 ∨ r.width ≤ x ∨ y < 0 ∨ r.height ≤ y) :
    setCell r x y c d s = r := by
  unfold setCell; rw [if_pos h]

/-- The stored depth after a sequence of writes at one position is the
running maximum of the initial depth and the write depths. -/
theorem applyWrites_depth (ws : List (Char × ℝ × Style)) (r : Renderer) (x y : ℤ)
    (hw : wfRenderer r) (hx0 : 0 ≤ x) (hxw : x < r.width) (hy0 : 0 ≤ y) (hyh : y < r.height) :
    (readCell (applyWrites r x y ws) x y).depth =
      ws.foldl (fun a w => max a w.2.1) (readCell r x y).depth := by
  induction ws generalizing r with
  | nil => rfl
  | cons w rest ih =>
    have hstep := readCell_setCell r x y w.1 w.2.1 w.2.2 hw hx0 hxw hy0 hyh
    have hwf2 := setCell_wf r x y w.1 w.2.1 w.2.2 hw
    have hW := setCell_width r x y w.1 w.2.1 w.2.2
    have hH := setCell_height r x y w.1 w.2.1 w.2.2
    show (readCell (applyWrites (setCell r x y w.1 w.2.1 w.2.2) x y rest) x y).depth = _
    rw [ih _ hwf2 (hW ▸ hxw) (hH ▸ hyh), List.foldl_cons]
    congr 1
    rw [hstep]
    split_ifs with hd
    · exact (max_eq_right hd.le).symm
    · exact (max_eq_left (not_lt.mp hd)).symm

theorem getD_replicate_lt {α : Type} (a d : α) {n i : ℕ} (h : i < n) :
    (List.replicate n a).getD i d = a := by
  rw [List.getD_eq_getElem _ _ (by simpa using h)]
  simp

theorem wf_NewRenderer (w h : ℤ) : wfRenderer (NewRenderer w h) := by
  refine ⟨by simp [NewRenderer, initBuffer], ?_⟩
  intro row hrow
  rw [List.eq_of_mem_replicate hrow]
  simp [NewRenderer]

theorem wf_Clear (r : Renderer) (hw : wfRenderer r) : wfRenderer r.Clear := by
  refine ⟨by simpa [Renderer.Clear] using hw.1, ?_⟩
  intro row hrow
  simp only [Renderer.Clear, List.mem_map] at hrow
  obtain ⟨row0, hmem, heq⟩ := hrow
  rw [← heq, List.length_map]
  exact hw.2 row0 hmem

theorem readCell_Clear_NewRenderer {w h x y : ℤ} (hx : 0 ≤ x) (hxw : x < w)
    (hy : 0 ≤ y) (hyh : y < h) :
    readCell (Renderer.Clear (NewRenderer w h)) x y = clearedCell := by
  unfold readCell Renderer.Clear NewRenderer initBuffer
  simp only [List.map_replicate]
  rw [getD_replicate_lt _ _ (by omega), getD_replicate_lt _ _ (by omega)]

/-! ## Claims -/

/-- C6: a `setCell` write at any coordinate outside the buffer bounds
(`x < 0`, `x ≥ width`, `y < 0` or `y ≥ height`) is silently dropped: the
renderer (buffer included) is left unchanged and no panic is modelled,
for every character, depth and style argument. -/
theorem C6_setCell_out_of_bounds_dropped (r : Renderer) (x y : ℤ) (c : Char)
    (d : ℝ) (s : Style) (h : x < 0 ∨ r.width ≤ x ∨ y < 0 ∨ r.height ≤ y) :
    setCell r x y c d s = r :=
  setCell_oob r x y c d s h

theorem C6_setCell_out_of_bounds_dropped_witness :
    ((-1 : ℤ) < 0 ∨ (NewRenderer 10 10).width ≤ -1 ∨ (3 : ℤ) < 0 ∨
        (NewRenderer 10 10).height ≤ 3) ∧
      setCell (NewRenderer 10 10) (-1) 3 'x' 1 Style.dflt = NewRenderer 10 10 :=
  ⟨Or.inl (by decide),
   C6_setCell_out_of_bounds_dropped (NewRenderer 10 10) (-1) 3 'x' 1 Style.dflt
     (Or.inl (by decide))⟩

/-- C1: an in-bounds `setCell` write replaces the stored cell exactly when
its depth strictly exceeds the stored depth (otherwise the cell is
untouched); consequently over any sequence of writes at one position the
stored depth is the running maximum, and in the 10×10 end-to-end scenario
writing depth 1.0 then 0.5 at one cell keeps the depth-1.0 character while
writing 0.5 then 1.0 replaces it. -/
theorem C1_setCell_depth_test :
    (∀ (r : Renderer) (x y : ℤ) (c : Char) (d : ℝ) (s : Style),
        wfRenderer r → 0 ≤ x → x < r.width → 0 ≤ y → y < r.height →
        readCell (setCell r x y c d s) x y =
          if d > (readCell r x y).depth then
            { char := c, style := s, depth := d, set := true }
          else readCell r x y) ∧
    (∀ (r : Renderer) (x y : ℤ) (ws : List (Char × ℝ × Style)),
        wfRenderer r → 0 ≤ x → x < r.width → 0 ≤ y → y < r.height →
        (readCell (applyWrites r x y ws) x y).depth =
          ws.foldl (fun a w => max a w.2.1) (readCell r x y).depth) ∧
    readCell (setCell (setCell (Renderer.Clear (NewRenderer 10 10)) 5 5 'A' 1
        (Style.rgb 1 2 3)) 5 5 'B' (1 / 2) (Style.rgb 4 5 6)) 5 5 =
      { char := 'A', style := Style.rgb 1 2 3, depth := 1, set := true } ∧
    readCell (setCell (setCell (Renderer.Clear (NewRenderer 10 10)) 5 5 'B' (1 / 2)
        (Style.rgb 4 5 6)) 5 5 'A' 1 (Style.rgb 1 2 3)) 5 5 =
      { char := 'A', style := Style.rgb 1 2 3, depth := 1, set := true } := by
  have hwf0 : wfRenderer (Renderer.Clear (NewRenderer 10 10)) :=
    wf_Clear _ (wf_NewRenderer 10 10)
  have hrd : readCell (Renderer.Clear (NewRenderer 10 10)) 5 5 = clearedCell :=
    readCell_Clear_NewRenderer (by norm_num) (by norm_num) (by norm_num) (by norm_num)
  have hWc : (Renderer.Clear (NewRenderer 10 10)).width = 10 := rfl
  have hHc : (Renderer.Clear (NewRenderer 10 10)).height = 10 := rfl
  refine ⟨fun r x y c d s hw hx0 hxw hy0 hyh =>
      readCell_setCell r x y c d s hw hx0 hxw hy0 hyh,
    fun r x y ws hw hx0 hxw hy0 hyh =>
      applyWrites_depth ws r x y hw hx0 hxw hy0 hyh, ?_, ?_⟩
  · rw [readCell_setCell _ 5 5 _ _ _
      (setCell_wf _ _ _ _ _ _ hwf0) (by norm_num)
      (by rw [setCell_width, hWc]; norm_num) (by norm_num)
      (by rw [setCell_height, hHc]; norm_num),
      readCell_setCell _ 5 5 _ _ _ hwf0 (by norm_num) (by rw [hWc]; norm_num)
      (by norm_num) (by rw [hHc]; norm_num), hrd,
      if_pos (show (1 : ℝ) > clearedCell.depth by norm_num [clearedCell, maxFloat64])]
    rw [if_neg (show ¬((1 / 2 : ℝ) >
      ({ char := 'A', style := Style.rgb 1 2 3, depth := 1, set := true } : Cell).depth)
      by norm_num)]
  · rw [readCell_setCell _ 5 5 _ _ _
      (setCell_wf _ _ _ _ _ _ hwf0) (by norm_num)
      (by rw [setCell_width, hWc]; norm_num) (by norm_num)
      (by rw [setCell_height, hHc]; norm_num),
      readCell_setCell _ 5 5 _ _ _ hwf0 (by norm_num) (by rw [hWc]; norm_num)
      (by norm_num) (by rw [hHc]; norm_num), hrd,
      if_pos (show (1 / 2 : ℝ) > clearedCell.depth by norm_num [clearedCell, maxFloat64])]
    rw [if_pos (show (1 : ℝ) >
      ({ char := 'B', style := Style.rgb 4 5 6, depth := 1 / 2, set := true } : Cell).depth
      by norm_num)]

theorem C1_setCell_depth_test_witness :
    (wfRenderer (Renderer.Clear (NewRenderer 10 10)) ∧ (0 : ℤ) ≤ 5 ∧
        (5 : ℤ) < (Renderer.Clear (NewRenderer 10 10)).width ∧ (0 : ℤ) ≤ 5 ∧
        (5 : ℤ) < (Renderer.Clear (NewRenderer 10 10)).height) ∧
      readCell (setCell (Renderer.Clear (NewRenderer 10 10)) 5 5 'A' 2
          (Style.rgb 1 2 3)) 5 5 =
        if (2 : ℝ) > (readCell (Renderer.Clear (NewRenderer 10 10)) 5 5).depth then
          { char := 'A', style := Style.rgb 1 2 3, depth := 2, set := true }
        else readCell (Renderer.Clear (NewRenderer 10 10)) 5 5 :=
  ⟨⟨wf_Clear _ (wf_NewRenderer 10 10), by decide, by decide, by decide, by decide⟩,
   C1_setCell_depth_test.1 (Renderer.Clear (NewRenderer 10 10)) 5 5 'A' 2
     (Style.rgb 1 2 3) (wf_Clear _ (wf_NewRenderer 10 10)) (by decide) (by decide)
     (by decide) (by decide)⟩

theorem goTrunc_mono {x y : ℝ} (h : x ≤ y) : goTrunc x ≤ goTrunc y := by
  unfold goTrunc
  split_ifs with hx hy1 hy2
  · exact Int.ceil_le_ceil h
  · have h1 : (⌈x⌉ : ℤ) ≤ 0 := Int.ceil_le.mpr (by exact_mod_cast hx.le)
    have h2 : (0 : ℤ) ≤ ⌊y⌋ := Int.floor_nonneg.mpr (not_lt.mp hy1)
    omega
  · exact absurd (h.trans_lt hy2) hx
  · exact Int.floor_le_floor h

theorem mapCharIdx_mono {n : ℤ} (hn : 1 ≤ n) {v1 v2 : ℝ} (h : v1 ≤ v2) :
    mapCharIdx v1 n ≤ mapCharIdx v2 n := by
  have hc : (0 : ℝ) ≤ ((n - 1 : ℤ) : ℝ) := by
    rw [Int.cast_nonneg]; omega
  have ht : goTrunc (v1 * ((n - 1 : ℤ) : ℝ)) ≤ goTrunc (v2 * ((n - 1 : ℤ) : ℝ)) :=
    goTrunc_mono (mul_le_mul_of_nonneg_right h hc)
  unfold mapCharIdx
  simp only
  split_ifs <;> omega

theorem stopIndex_mono (l : List ColorStop) {t1 t2 : ℝ} (h : t1 ≤ t2) :
    stopIndex l t1 ≤ stopIndex l t2 := by
  induction l with
  | nil => exact le_refl _
  | cons s rest ih =>
    unfold stopIndex
    split_ifs with h1 h2 h2
    · exact le_refl _
    · exact Nat.zero_le _
    · exact absurd (lt_of_le_of_lt h h2) h1
    · exact Nat.succ_le_succ ih

theorem getStyleFromT_eq_stop (t : ℝ) :
    getStyleFromT t =
      Style.rgb
        ((colorGradient.getD (min (stopIndex colorGradient t) 6) ⟨2, 220, 245, 255⟩).r)
        ((colorGradient.getD (min (stopIndex colorGradient t) 6) ⟨2, 220, 245, 255⟩).g)
        ((colorGradient.getD (min (stopIndex colorGradient t) 6) ⟨2, 220, 245, 255⟩).b) := by
  simp only [getStyleFromT, colorGradient, findStop, stopIndex]
  split_ifs <;> rfl

/-- C7: palette and colour lookups are monotone: larger shade values never
select an earlier glyph index (for the 10-entry `shadeChars` and the
4-entry `blockChars` palettes) nor an earlier colour-gradient stop; and
`mapToChar`/`getStyle` are exactly lookups at those indices. -/
theorem C7_palette_monotone :
    (∀ v1 v2 : ℝ, v1 ≤ v2 →
        mapCharIdx v1 (shadeChars.length : ℤ) ≤ mapCharIdx v2 (shadeChars.length : ℤ) ∧
        mapCharIdx v1 (blockChars.length : ℤ) ≤ mapCharIdx v2 (blockChars.length : ℤ) ∧
        min (stopIndex colorGradient v1) 6 ≤ min (stopIndex colorGradient v2) 6) ∧
    (∀ (v : ℝ) (chars : List Char),
        mapToChar v chars = chars.getD (mapCharIdx v (chars.length : ℤ)).toNat ' ') ∧
    (∀ t : ℝ, getStyleFromT t =
        Style.rgb
          ((colorGradient.getD (min (stopIndex colorGradient t) 6) ⟨2, 220, 245, 255⟩).r)
          ((colorGradient.getD (min (stopIndex colorGradient t) 6) ⟨2, 220, 245, 255⟩).g)
          ((colorGradient.getD (min (stopIndex colorGradient t) 6) ⟨2, 220, 245, 255⟩).b)) := by
  refine ⟨fun v1 v2 h => ⟨?_, ?_, ?_⟩, fun v chars => rfl, getStyleFromT_eq_stop⟩
  · exact mapCharIdx_mono (by simp [shadeChars]) h
  · exact mapCharIdx_mono (by simp [blockChars]) h
  · exact min_le_min (stopIndex_mono colorGradient h) (le_refl 6)

theorem C7_palette_monotone_witness :
    (0 : ℝ) ≤ 1 ∧
      (mapCharIdx 0 (shadeChars.length : ℤ) ≤ mapCharIdx 1 (shadeChars.length : ℤ) ∧
       mapCharIdx 0 (blockChars.length : ℤ) ≤ mapCharIdx 1 (blockChars.length : ℤ) ∧
       min (stopIndex colorGradient 0) 6 ≤ min (stopIndex colorGradient 1) 6) :=
  ⟨by norm_num, C7_palette_monotone.1 0 1 (by norm_num)⟩

theorem drawLineLoop_count_le (x2 y2 dx dy sx sy : ℤ) (c : Char) (d : ℝ) (s : Style) :
    ∀ (fuel : ℕ) (x y err : ℤ) (r : Renderer),
      (drawLineLoop x2 y2 dx dy sx sy c d s fuel x y err r).2 ≤ fuel := by
  intro fuel
  induction fuel with
  | zero => intro x y err r; exact le_refl 0
  | succ f ih =>
    intro x y err r
    unfold drawLineLoop
    simp only
    split_ifs
    all_goals
      first
      | exact Nat.succ_le_succ (Nat.zero_le f)
      | simpa using Nat.succ_le_succ (ih _ _ _ _)

/-- C8: `drawShadedLine` terminates after at most `|dx| + |dy| + 1` steps
(the code's own `maxSteps` cap), each step writing exactly one cell, and
when the two endpoints coincide it writes that single cell and stops at
once. -/
theorem C8_drawShadedLine_steps :
    (∀ (r : Renderer) (x1 y1 x2 y2 : ℤ) (depth nz lf : ℝ) (s : Style),
        ((drawShadedLine r x1 y1 x2 y2 depth nz lf s).2 : ℤ) ≤
          |x2 - x1| + |y2 - y1| + 1) ∧
    (∀ (r : Renderer) (x y : ℤ) (depth nz lf : ℝ) (s : Style),
        (drawShadedLine r x y x y depth nz lf s).2 = 1) := by
  constructor
  · intro r x1 y1 x2 y2 depth nz lf s
    have h1 : (drawShadedLine r x1 y1 x2 y2 depth nz lf s).2 ≤
        (|x2 - x1| + |y2 - y1| + 1).toNat := by
      unfold drawShadedLine
      exact drawLineLoop_count_le _ _ _ _ _ _ _ _ _ _ _ _ _ _
    have h2 : (0 : ℤ) ≤ |x2 - x1| + |y2 - y1| + 1 := by positivity
    calc ((drawShadedLine r x1 y1 x2 y2 depth nz lf s).2 : ℤ)
        ≤ ((|x2 - x1| + |y2 - y1| + 1).toNat : ℤ) := by exact_mod_cast h1
      _ = |x2 - x1| + |y2 - y1| + 1 := Int.toNat_of_nonneg h2
  · intro r x y depth nz lf s
    simp [drawShadedLine, drawLineLoop]

theorem gerstner_foldl (n : ℕ) (x0 y0 t : ℝ) (l : List WaveParams) (a b c : ℝ) :
    l.foldl (gerstnerStep n x0 y0 t) (a, b, c) =
      (a + (l.map fun wp =>
          wp.Steepness / (2 * Real.pi / wp.Wavelength * wp.Amplitude * (n : ℝ)) *
            wp.Amplitude * wp.Direction.1 *
            Real.cos (2 * Real.pi / wp.Wavelength *
              (wp.Direction.1 * x0 + wp.Direction.2 * y0) - wp.Speed * t)).sum,
       b + (l.map fun wp =>
          wp.Steepness / (2 * Real.pi / wp.Wavelength * wp.Amplitude * (n : ℝ)) *
            wp.Amplitude * wp.Direction.2 *
            Real.cos (2 * Real.pi / wp.Wavelength *
              (wp.Direction.1 * x0 + wp.Direction.2 * y0) - wp.Speed * t)).sum,
       c + (l.map fun wp =>
          wp.Amplitude * Real.sin (2 * Real.pi / wp.Wavelength *
              (wp.Direction.1 * x0 + wp.Direction.2 * y0) - wp.Speed * t)).sum) := by
  induction l generalizing a b c with
  | nil => simp
  | cons hd tl ih =>
    rw [List.foldl_cons]
    rw [show gerstnerStep n x0 y0 t (a, b, c) hd =
      (a + hd.Steepness / (2 * Real.pi / hd.Wavelength * hd.Amplitude * (n : ℝ)) *
          hd.Amplitude * hd.Direction.1 *
          Real.cos (2 * Real.pi / hd.Wavelength *
            (hd.Direction.1 * x0 + hd.Direction.2 * y0) - hd.Speed * t),
       b + hd.Steepness / (2 * Real.pi / hd.Wavelength * hd.Amplitude * (n : ℝ)) *
          hd.Amplitude * hd.Direction.2 *
          Real.cos (2 * Real.pi / hd.Wavelength *
            (hd.Direction.1 * x0 + hd.Direction.2 * y0) - hd.Speed * t),
       c + hd.Amplitude * Real.sin (2 * Real.pi / hd.Wavelength *
            (hd.Direction.1 * x0 + hd.Direction.2 * y0) - hd.Speed * t)) from rfl]
    rw [ih]
    simp only [List.map_cons, List.sum_cons, Prod.mk.injEq]
    exact ⟨by ring, by ring, by ring⟩

/-- C2: the Gerstner model yields exactly the spec's closed form: x0 and
y0 are each displaced by the sum over components of
`Q·amplitude·direction·cos(phase)`, and z is the sum of
`amplitude·sin(phase)`, with `k = 2π/wavelength`,
`phase = k·(dir·[x0,y0]) − speed·t` and
`Q = steepness/(k·amplitude·waveCount)`. -/
theorem C2_gerstner_formula (waves : List WaveParams) (x0 y0 t : ℝ) :
    gerstnerWave waves x0 y0 t =
      (x0 + (waves.map fun wp =>
          wp.Steepness / (2 * Real.pi / wp.Wavelength * wp.Amplitude * (waves.length : ℝ)) *
            wp.Amplitude * wp.Direction.1 *
            Real.cos (2 * Real.pi / wp.Wavelength *
              (wp.Direction.1 * x0 + wp.Direction.2 * y0) - wp.Speed * t)).sum,
       y0 + (waves.map fun wp =>
          wp.Steepness / (2 * Real.pi / wp.Wavelength * wp.Amplitude * (waves.length : ℝ)) *
            wp.Amplitude * wp.Direction.2 *
            Real.cos (2 * Real.pi / wp.Wavelength *
              (wp.Direction.1 * x0 + wp.Direction.2 * y0) - wp.Speed * t)).sum,
       (waves.map fun wp =>
          wp.Amplitude * Real.sin (2 * Real.pi / wp.Wavelength *
              (wp.Direction.1 * x0 + wp.Direction.2 * y0) - wp.Speed * t)).sum) := by
  unfold gerstnerWave
  rw [gerstner_foldl]
  rw [zero_add]

theorem initWaves_succ3 (k : ℕ) :
    initWaves (k + 3) = wave0 :: wave1 :: wave2 :: List.replicate k default := rfl

theorem normalizeDir_Amplitude (p : WaveParams) :
    (normalizeDir p).Amplitude = p.Amplitude := rfl

theorem normalizeDir_Wavelength (p : WaveParams) :
    (normalizeDir p).Wavelength = p.Wavelength := rfl

/-- Normalisation yields a unit vector whenever the original direction is
nonzero. -/
theorem normalizeDir_unit (p : WaveParams)
    (hp : 0 < p.Direction.1 * p.Direction.1 + p.Direction.2 * p.Direction.2) :
    Real.sqrt ((normalizeDir p).Direction.1 * (normalizeDir p).Direction.1 +
      (normalizeDir p).Direction.2 * (normalizeDir p).Direction.2) = 1 := by
  have hs : Real.sqrt (p.Direction.1 * p.Direction.1 + p.Direction.2 * p.Direction.2) *
      Real.sqrt (p.Direction.1 * p.Direction.1 + p.Direction.2 * p.Direction.2) =
      p.Direction.1 * p.Direction.1 + p.Direction.2 * p.Direction.2 :=
    Real.mul_self_sqrt hp.le
  have hs0 : Real.sqrt (p.Direction.1 * p.Direction.1 + p.Direction.2 * p.Direction.2) ≠ 0 :=
    ne_of_gt (Real.sqrt_pos.mpr hp)
  show Real.sqrt
      (p.Direction.1 / Real.sqrt (p.Direction.1 * p.Direction.1 + p.Direction.2 * p.Direction.2) *
        (p.Direction.1 / Real.sqrt (p.Direction.1 * p.Direction.1 + p.Direction.2 * p.Direction.2)) +
       p.Direction.2 / Real.sqrt (p.Direction.1 * p.Direction.1 + p.Direction.2 * p.Direction.2) *
        (p.Direction.2 / Real.sqrt (p.Direction.1 * p.Direction.1 + p.Direction.2 * p.Direction.2))) = 1
  rw [div_mul_div_comm, div_mul_div_comm, hs, div_add_div_same,
    div_self (ne_of_gt hp)]
  exact Real.sqrt_one

theorem toNat_sub3 {c : ℤ} (h : 3 ≤ c) : c.toNat = (c.toNat - 3) + 3 := by omega

/-- The wave list built by `NewWave` for `3 ≤ WaveCount`. -/
theorem NewWave_waves (cfg : Config) (h : 3 ≤ cfg.WaveCount) :
    (NewWave cfg).waves =
      normalizeDir wave0 :: normalizeDir wave1 :: normalizeDir wave2 ::
        List.replicate (cfg.WaveCount.toNat - 3) (normalizeDir default) := by
  show (initWaves cfg.WaveCount.toNat).map normalizeDir = _
  rw [toNat_sub3 h, initWaves_succ3]
  simp [List.map_replicate]

/-- C9 counterexample: with `WaveCount = 4` the fourth component's initial
direction is the zero vector, whose normalisation (0/0 in the real model,
NaN in Go) is not a unit vector — so not *every* component's direction has
unit magnitude after construction. -/
theorem C9_counterexample :
    Real.sqrt
      (((NewWave (⟨80, 60, 0.3, 4⟩ : Config)).waves.getD 3 default).Direction.1 *
        ((NewWave (⟨80, 60, 0.3, 4⟩ : Config)).waves.getD 3 default).Direction.1 +
       ((NewWave (⟨80, 60, 0.3, 4⟩ : Config)).waves.getD 3 default).Direction.2 *
        ((NewWave (⟨80, 60, 0.3, 4⟩ : Config)).waves.getD 3 default).Direction.2) ≠ 1 := by
  rw [NewWave_waves _ (by norm_num)]
  have h4 : ((4 : ℤ).toNat - 3) = 1 := by decide
  rw [h4]
  show Real.sqrt
      ((normalizeDir default).Direction.1 * (normalizeDir default).Direction.1 +
       (normalizeDir default).Direction.2 * (normalizeDir default).Direction.2) ≠ 1
  show Real.sqrt
      ((0 : ℝ) / Real.sqrt ((0 : ℝ) * 0 + 0 * 0) * ((0 : ℝ) / Real.sqrt ((0 : ℝ) * 0 + 0 * 0)) +
       (0 : ℝ) / Real.sqrt ((0 : ℝ) * 0 + 0 * 0) * ((0 : ℝ) / Real.sqrt ((0 : ℝ) * 0 + 0 * 0))) ≠ 1
  simp

/-- C9 (amended): after `NewWave`, the three explicitly assigned wave
components (indices 0, 1, 2 — all components when `WaveCount = 3`, the
only count the code assigns nonzero directions to) have unit-magnitude
direction vectors; extra zero-initialised components (`WaveCount > 3`) do
not, as the counterexample shows. -/
theorem C9_directions_unit (cfg : Config) (h : 3 ≤ cfg.WaveCount) :
    ∀ i : ℕ, i < 3 →
      Real.sqrt (((NewWave cfg).waves.getD i default).Direction.1 *
          ((NewWave cfg).waves.getD i default).Direction.1 +
        ((NewWave cfg).waves.getD i default).Direction.2 *
          ((NewWave cfg).waves.getD i default).Direction.2) = 1 := by
  intro i hi
  rw [NewWave_waves cfg h]
  interval_cases i
  · exact normalizeDir_unit wave0 (by norm_num [wave0])
  · exact normalizeDir_unit wave1 (by norm_num [wave1])
  · exact normalizeDir_unit wave2 (by norm_num [wave2])

theorem C9_directions_unit_witness :
    (3 : ℤ) ≤ (3 : ℤ) ∧ (0 : ℕ) < 3 ∧
      Real.sqrt (((NewWave DefaultConfig).waves.getD 0 default).Direction.1 *
          ((NewWave DefaultConfig).waves.getD 0 default).Direction.1 +
        ((NewWave DefaultConfig).waves.getD 0 default).Direction.2 *
          ((NewWave DefaultConfig).waves.getD 0 default).Direction.2) = 1 :=
  ⟨by decide, by decide,
   C9_directions_unit DefaultConfig (by decide) 0 (by decide)⟩

theorem NewWaveOpt_some (cfg : Config) (h : 3 ≤ cfg.WaveCount) :
    NewWaveOpt cfg = some (NewWave cfg) := by
  have hn : 3 ≤ cfg.WaveCount.toNat := by omega
  unfold NewWaveOpt
  rw [if_neg (by omega)]
  rw [show setChecked (List.replicate cfg.WaveCount.toNat (default : WaveParams)) 0 wave0 =
    some ((List.replicate cfg.WaveCount.toNat (default : WaveParams)).set 0 wave0) from
    if_pos (by simp; omega)]
  rw [Option.bind_eq_bind, Option.some_bind]
  rw [show setChecked ((List.replicate cfg.WaveCount.toNat (default : WaveParams)).set 0 wave0)
      1 wave1 =
    some (((List.replicate cfg.WaveCount.toNat (default : WaveParams)).set 0 wave0).set 1 wave1)
    from if_pos (by simp; omega)]
  rw [Option.some_bind]
  rw [show setChecked (((List.replicate cfg.WaveCount.toNat (default : WaveParams)).set 0
        wave0).set 1 wave1) 2 wave2 =
    some ((((List.replicate cfg.WaveCount.toNat (default : WaveParams)).set 0 wave0).set 1
        wave1).set 2 wave2)
    from if_pos (by simp; omega)]
  rw [Option.some_bind]
  rfl

theorem NewWaveOpt_none (cfg : Config) (h : cfg.WaveCount < 3) :
    NewWaveOpt cfg = none := by
  unfold NewWaveOpt
  by_cases h0 : cfg.WaveCount < 0
  · rw [if_pos h0]
  · rw [if_neg h0]
    push_neg at h0
    have : cfg.WaveCount.toNat < 3 := by omega
    interval_cases hcn : cfg.WaveCount.toNat <;>
      simp [setChecked, hcn]

/-- C10: `NewWave` returns normally exactly when `WaveCount ≥ 3` (for
smaller counts the indexed assignments panic, modelled by `none`); when it
returns, the wave slice has length `WaveCount` and every component past
the first three is zero-valued: zero wavelength and zero amplitude. -/
theorem C10_NewWave_wavecount :
    (∀ cfg : Config, (NewWaveOpt cfg).isSome ↔ 3 ≤ cfg.WaveCount) ∧
    (∀ cfg : Config, 3 ≤ cfg.WaveCount → NewWaveOpt cfg = some (NewWave cfg)) ∧
    (∀ cfg : Config, 3 ≤ cfg.WaveCount →
      (NewWave cfg).waves.length = cfg.WaveCount.toNat) ∧
    (∀ (cfg : Config) (i : ℕ), 3 ≤ cfg.WaveCount → 3 ≤ i →
      ((NewWave cfg).waves.getD i default).Wavelength = 0 ∧
      ((NewWave cfg).waves.getD i default).Amplitude = 0) := by
  refine ⟨?_, NewWaveOpt_some, ?_, ?_⟩
  · intro cfg
    by_cases h : 3 ≤ cfg.WaveCount
    · rw [NewWaveOpt_some cfg h]
      simpa using h
    · rw [NewWaveOpt_none cfg (by omega)]
      simpa using h
  · intro cfg h
    rw [NewWave_waves cfg h]
    simp
    omega
  · intro cfg i h hi
    rw [NewWave_waves cfg h]
    obtain ⟨j, rfl⟩ : ∃ j, i = j + 3 := ⟨i - 3, by omega⟩
    show ((List.replicate (cfg.WaveCount.toNat - 3) (normalizeDir default)).getD j
        default).Wavelength = 0 ∧
      ((List.replicate (cfg.WaveCount.toNat - 3) (normalizeDir default)).getD j
        default).Amplitude = 0
    rcases Nat.lt_or_ge j (cfg.WaveCount.toNat - 3) with hj | hj
    · rw [getD_replicate_lt _ _ hj]
      exact ⟨normalizeDir_Wavelength default, normalizeDir_Amplitude default⟩
    · rw [List.getD_eq_default _ _ (by simpa using hj)]
      exact ⟨rfl, rfl⟩

theorem C10_NewWave_wavecount_witness :
    (3 : ℤ) ≤ (4 : ℤ) ∧ (3 : ℕ) ≤ 3 ∧
      NewWaveOpt (⟨80, 60, 0.3, 4⟩ : Config) =
        some (NewWave (⟨80, 60, 0.3, 4⟩ : Config)) ∧
      (NewWave (⟨80, 60, 0.3, 4⟩ : Config)).waves.length = (4 : ℤ).toNat ∧
      ((NewWave (⟨80, 60, 0.3, 4⟩ : Config)).waves.getD 3 default).Wavelength = 0 ∧
      ((NewWave (⟨80, 60, 0.3, 4⟩ : Config)).waves.getD 3 default).Amplitude = 0 :=
  ⟨by decide, by decide,
   C10_NewWave_wavecount.2.1 _ (by decide),
   C10_NewWave_wavecount.2.2.1 _ (by decide),
   (C10_NewWave_wavecount.2.2.2 _ 3 (by decide) (by decide)).1,
   (C10_NewWave_wavecount.2.2.2 _ 3 (by decide) (by decide)).2⟩

theorem foldl_flatMap {α β γ : Type} (g : β → List γ) (f : α → γ → α)
    (l : List β) (init : α) :
    (l.flatMap g).foldl f init = l.foldl (fun a x => (g x).foldl f a) init := by
  induction l generalizing init with
  | nil => rfl
  | cons b l ih => simp [List.flatMap_cons, List.foldl_append, ih]

theorem fold_updateCell_min (cfg : Config) (waves : List WaveParams) (t : ℝ) :
    ∀ (l : List (ℕ × ℕ)) (st : List (List Point3D) × ℝ × ℝ),
      (l.foldl (updateCell cfg waves t) st).2.1 =
        runMin st.2.1 (l.map (sampleZ cfg waves t)) := by
  intro l
  induction l with
  | nil => intro st; rfl
  | cons dw l ih =>
    intro st
    rw [List.foldl_cons, ih]
    rfl

theorem fold_updateCell_max (cfg : Config) (waves : List WaveParams) (t : ℝ) :
    ∀ (l : List (ℕ × ℕ)) (st : List (List Point3D) × ℝ × ℝ),
      (l.foldl (updateCell cfg waves t) st).2.2 =
        runMax st.2.2 (l.map (sampleZ cfg waves t)) := by
  intro l
  induction l with
  | nil => intro st; rfl
  | cons dw l ih =>
    intro st
    rw [List.foldl_cons, ih]
    rfl

theorem fold_updateCell_grid (cfg : Config) (waves : List WaveParams) (t : ℝ) :
    ∀ (l : List (ℕ × ℕ)) (st : List (List Point3D) × ℝ × ℝ),
      (l.foldl (updateCell cfg waves t) st).1 =
        l.foldl (fun g dw =>
          g.set dw.1 ((g.getD dw.1 []).set dw.2 (samplePoint cfg waves t dw.1 dw.2))) st.1 := by
  intro l
  induction l with
  | nil => intro st; rfl
  | cons dw l ih =>
    intro st
    rw [List.foldl_cons, List.foldl_cons, ih]
    rfl

theorem foldl_set_range {α : Type} (f : ℕ → α) :
    ∀ (w : ℕ) (row : List α), w ≤ row.length →
      (List.range w).foldl (fun r j => r.set j (f j)) row =
        ((List.range w).map f) ++ row.drop w := by
  intro w
  induction w with
  | zero => intro row _; simp
  | succ w ih =>
    intro row h
    rw [List.range_succ, List.foldl_append, List.foldl_cons, List.foldl_nil,
      ih row (by omega)]
    have hlen : ((List.range w).map f).length = w := by simp
    rw [List.set_append_right _ _ (by omega), hlen, Nat.sub_self]
    rw [List.map_append, List.append_assoc]
    congr 1
    rw [List.drop_eq_getElem_cons (show w < row.length by omega)]
    rfl

theorem foldl_setrow_at (d : ℕ) (f : ℕ → Point3D) :
    ∀ (ws : List ℕ) (g : List (List Point3D)), d < g.length →
      ws.foldl (fun g j => g.set d ((g.getD d []).set j (f j))) g =
        g.set d (ws.foldl (fun r j => r.set j (f j)) (g.getD d [])) := by
  intro ws
  induction ws with
  | nil =>
    intro g hd
    rw [List.foldl_nil, List.foldl_nil, List.getD_eq_getElem g [] hd]
    apply List.ext_getElem
    · simp
    · intro n h1 h2
      rcases eq_or_ne d n with rfl | hne
      · simp
      · rw [List.getElem_set_ne hne]
  | cons j ws ih =>
    intro g hd
    rw [List.foldl_cons, List.foldl_cons,
      ih (g.set d ((g.getD d []).set j (f j))) (by simpa using hd),
      getD_set_self _ _ _ _ hd, List.set_set]

theorem outer_fold_char (cfg : Config) (waves : List WaveParams) (t : ℝ)
    (D W : ℕ) (g : List (List Point3D)) (hg : g.length = D)
    (hrows : ∀ row ∈ g, row.length = W) :
    ∀ k, k ≤ D →
      (List.range k).foldl
        (fun G d => (List.range W).foldl
          (fun G2 j => G2.set d ((G2.getD d []).set j (samplePoint cfg waves t d j))) G) g =
      ((List.range k).map
        (fun d => (List.range W).map (fun j => samplePoint cfg waves t d j))) ++
        g.drop k := by
  intro k
  induction k with
  | zero => intro _; simp
  | succ k ih =>
    intro hk
    rw [List.range_succ, List.foldl_append, List.foldl_cons, List.foldl_nil,
      ih (by omega)]
    have hmaplen : ((List.range k).map
        (fun d => (List.range W).map (fun j => samplePoint cfg waves t d j))).length = k := by
      simp
    have hGklen : (((List.range k).map
        (fun d => (List.range W).map (fun j => samplePoint cfg waves t d j))) ++
        g.drop k).length = D := by
      simp [hg]
      omega
    rw [foldl_setrow_at k (samplePoint cfg waves t k) (List.range W) _
      (by rw [hGklen]; omega)]
    have hkg : k < g.length := by omega
    have hrowlen : g[k].length = W := hrows _ (List.getElem_mem hkg)
    have hGkd : (((List.range k).map
        (fun d => (List.range W).map (fun j => samplePoint cfg waves t d j))) ++
        g.drop k).getD k [] = g[k] := by
      rw [List.getD_append_right _ _ _ _ (by omega), hmaplen, Nat.sub_self,
        List.drop_eq_getElem_cons hkg]
      rfl
    rw [hGkd]
    rw [foldl_set_range (samplePoint cfg waves t k) W g[k] (by omega)]
    have hdropnil : g[k].drop W = [] := List.drop_eq_nil_of_le (by omega)
    rw [hdropnil, List.append_nil]
    have hAle : (((List.range k).map
        (fun d => (List.range W).map (fun j => samplePoint cfg waves t d j)))).length ≤ k := by
      omega
    rw [List.set_append_right _ _ hAle, hmaplen, Nat.sub_self]
    rw [List.map_append, List.append_assoc]
    congr 1
    rw [List.drop_eq_getElem_cons hkg]
    rfl

theorem Update_config (s : Wave) (t : ℝ) : (Update s t).config = s.config := rfl

theorem Update_waves (s : Wave) (t : ℝ) : (Update s t).waves = s.waves := rfl

/-- What `Update` computes, in closed form: the grid is overwritten into
`gridFor`, MinZ/MaxZ are the running min/max folds over all sample z
values seeded with the `±math.MaxFloat64` sentinels, and the particle list
is rebuilt from those. Everything depends only on config, waves and `t`. -/
theorem Update_char (s : Wave) (t : ℝ) (hwf : wfWave s) :
    (Update s t).GridPoints = gridFor s.config s.waves t ∧
    (Update s t).MinZ = runMin maxFloat64
      ((gridIndices s.config.GridDepth s.config.GridWidth).map
        (sampleZ s.config s.waves t)) ∧
    (Update s t).MaxZ = runMax (-maxFloat64)
      ((gridIndices s.config.GridDepth s.config.GridWidth).map
        (sampleZ s.config s.waves t)) ∧
    (Update s t).Particles =
      (particleIndices s.config.GridDepth s.config.GridWidth).filterMap
        (emitParticle s.config (gridFor s.config s.waves t)
          (runMin maxFloat64
            ((gridIndices s.config.GridDepth s.config.GridWidth).map
              (sampleZ s.config s.waves t)))
          (runMax (-maxFloat64)
            ((gridIndices s.config.GridDepth s.config.GridWidth).map
              (sampleZ s.config s.waves t)))) := by
  have hgrid : ((gridIndices s.config.GridDepth s.config.GridWidth).foldl
      (updateCell s.config s.waves t) (s.GridPoints, maxFloat64, -maxFloat64)).1 =
      gridFor s.config s.waves t := by
    rw [fold_updateCell_grid]
    unfold gridIndices
    rw [foldl_flatMap]
    simp only [List.foldl_map]
    rw [outer_fold_char s.config s.waves t s.config.GridDepth s.config.GridWidth
      s.GridPoints hwf.1 hwf.2 s.config.GridDepth (le_refl _)]
    have hdrop : s.GridPoints.drop s.config.GridDepth = [] := by
      rw [← hwf.1]
      exact List.drop_length _
    rw [hdrop, List.append_nil]
    rfl
  have hmin : ((gridIndices s.config.GridDepth s.config.GridWidth).foldl
      (updateCell s.config s.waves t) (s.GridPoints, maxFloat64, -maxFloat64)).2.1 =
      runMin maxFloat64 ((gridIndices s.config.GridDepth s.config.GridWidth).map
        (sampleZ s.config s.waves t)) :=
    fold_updateCell_min _ _ _ _ _
  have hmax : ((gridIndices s.config.GridDepth s.config.GridWidth).foldl
      (updateCell s.config s.waves t) (s.GridPoints, maxFloat64, -maxFloat64)).2.2 =
      runMax (-maxFloat64) ((gridIndices s.config.GridDepth s.config.GridWidth).map
        (sampleZ s.config s.waves t)) :=
    fold_updateCell_max _ _ _ _ _
  refine ⟨hgrid, hmin, hmax, ?_⟩
  show ((particleIndices s.config.GridDepth s.config.GridWidth).filterMap
    (emitParticle s.config _ _ _)) = _
  rw [hgrid, hmin, hmax]

theorem wf_gridFor (cfg : Config) (waves : List WaveParams) (t : ℝ) :
    (gridFor cfg waves t).length = cfg.GridDepth ∧
      ∀ row ∈ gridFor cfg waves t, row.length = cfg.GridWidth := by
  refine ⟨by simp [gridFor], ?_⟩
  intro row hrow
  simp only [gridFor, List.mem_map] at hrow
  obtain ⟨d, _, rfl⟩ := hrow
  simp

theorem wf_Update (s : Wave) (t : ℝ) (hwf : wfWave s) : wfWave (Update s t) := by
  have h := (Update_char s t hwf).1
  unfold wfWave
  rw [h, Update_config]
  exact wf_gridFor s.config s.waves t

theorem wf_NewWave (cfg : Config) : wfWave (NewWave cfg) := by
  refine ⟨by simp [NewWave], ?_⟩
  intro row hrow
  show row.length = cfg.GridWidth
  have := List.eq_of_mem_replicate (show row ∈ _ from hrow)
  rw [this]
  simp

/-- C3: `Update` is a pure function of configuration, wave parameters and
`t`: two states agreeing on those (whatever their grids, particles, MinZ,
MaxZ) produce identical grids, particle lists and MinZ/MaxZ, and repeating
`Update` with the same `t` changes nothing. -/
theorem C3_update_pure :
    (∀ (s1 s2 : Wave) (t : ℝ), wfWave s1 → wfWave s2 →
        s1.config = s2.config → s1.waves = s2.waves →
        (Update s1 t).GridPoints = (Update s2 t).GridPoints ∧
        (Update s1 t).Particles = (Update s2 t).Particles ∧
        (Update s1 t).MinZ = (Update s2 t).MinZ ∧
        (Update s1 t).MaxZ = (Update s2 t).MaxZ) ∧
    (∀ (s : Wave) (t : ℝ), wfWave s →
        (Update (Update s t) t).GridPoints = (Update s t).GridPoints ∧
        (Update (Update s t) t).Particles = (Update s t).Particles ∧
        (Update (Update s t) t).MinZ = (Update s t).MinZ ∧
        (Update (Update s t) t).MaxZ = (Update s t).MaxZ) := by
  have main : ∀ (s1 s2 : Wave) (t : ℝ), wfWave s1 → wfWave s2 →
      s1.config = s2.config → s1.waves = s2.waves →
      (Update s1 t).GridPoints = (Update s2 t).GridPoints ∧
      (Update s1 t).Particles = (Update s2 t).Particles ∧
      (Update s1 t).MinZ = (Update s2 t).MinZ ∧
      (Update s1 t).MaxZ = (Update s2 t).MaxZ := by
    intro s1 s2 t h1 h2 hc hv
    obtain ⟨g1, m1, x1, p1⟩ := Update_char s1 t h1
    obtain ⟨g2, m2, x2, p2⟩ := Update_char s2 t h2
    rw [g1, g2, m1, m2, x1, x2, p1, p2, hc, hv]
    exact ⟨rfl, rfl, rfl, rfl⟩
  refine ⟨main, fun s t hwf => ?_⟩
  exact main (Update s t) s t (wf_Update s t hwf) hwf (Update_config s t)
    (Update_waves s t)

theorem C3_update_pure_witness :
    (wfWave (⟨⟨1, 1, 0.3, 0⟩, [], [[⟨1, 2, 3⟩]], [], 5, 7⟩ : Wave) ∧
     wfWave (⟨⟨1, 1, 0.3, 0⟩, [⟨⟨0, 0, 0⟩, 0⟩], [[⟨9, 8, 7⟩]], [], 0, 1⟩ : Wave) ∧
     (⟨⟨1, 1, 0.3, 0⟩, [], [[⟨1, 2, 3⟩]], [], 5, 7⟩ : Wave).config =
       (⟨⟨1, 1, 0.3, 0⟩, [⟨⟨0, 0, 0⟩, 0⟩], [[⟨9, 8, 7⟩]], [], 0, 1⟩ : Wave).config ∧
     (⟨⟨1, 1, 0.3, 0⟩, [], [[⟨1, 2, 3⟩]], [], 5, 7⟩ : Wave).waves =
       (⟨⟨1, 1, 0.3, 0⟩, [⟨⟨0, 0, 0⟩, 0⟩], [[⟨9, 8, 7⟩]], [], 0, 1⟩ : Wave).waves) ∧
    ((Update (⟨⟨1, 1, 0.3, 0⟩, [], [[⟨1, 2, 3⟩]], [], 5, 7⟩ : Wave) 0).GridPoints =
       (Update (⟨⟨1, 1, 0.3, 0⟩, [⟨⟨0, 0, 0⟩, 0⟩], [[⟨9, 8, 7⟩]], [], 0, 1⟩ : Wave) 0).GridPoints ∧
     (Update (⟨⟨1, 1, 0.3, 0⟩, [], [[⟨1, 2, 3⟩]], [], 5, 7⟩ : Wave) 0).Particles =
       (Update (⟨⟨1, 1, 0.3, 0⟩, [⟨⟨0, 0, 0⟩, 0⟩], [[⟨9, 8, 7⟩]], [], 0, 1⟩ : Wave) 0).Particles ∧
     (Update (⟨⟨1, 1, 0.3, 0⟩, [], [[⟨1, 2, 3⟩]], [], 5, 7⟩ : Wave) 0).MinZ =
       (Update (⟨⟨1, 1, 0.3, 0⟩, [⟨⟨0, 0, 0⟩, 0⟩], [[⟨9, 8, 7⟩]], [], 0, 1⟩ : Wave) 0).MinZ ∧
     (Update (⟨⟨1, 1, 0.3, 0⟩, [], [[⟨1, 2, 3⟩]], [], 5, 7⟩ : Wave) 0).MaxZ =
       (Update (⟨⟨1, 1, 0.3, 0⟩, [⟨⟨0, 0, 0⟩, 0⟩], [[⟨9, 8, 7⟩]], [], 0, 1⟩ : Wave) 0).MaxZ) :=
  ⟨⟨by constructor <;> simp [wfWave], by constructor <;> simp [wfWave], rfl, rfl⟩,
   C3_update_pure.1 _ _ 0 (by constructor <;> simp [wfWave])
     (by constructor <;> simp [wfWave]) rfl rfl⟩

theorem runMin_le_init (init : ℝ) (l : List ℝ) : runMin init l ≤ init := by
  induction l generalizing init with
  | nil => exact le_refl _
  | cons a l ih =>
    show runMin (if a < init then a else init) l ≤ init
    refine (ih _).trans ?_
    split_ifs with h
    · exact h.le
    · exact le_refl _

theorem runMin_le_mem (init : ℝ) (l : List ℝ) : ∀ z ∈ l, runMin init l ≤ z := by
  induction l generalizing init with
  | nil => intro z hz; exact absurd hz (List.not_mem_nil z)
  | cons a l ih =>
    intro z hz
    rcases List.mem_cons.mp hz with rfl | hz
    · show runMin (if z < init then z else init) l ≤ z
      refine (runMin_le_init _ _).trans ?_
      split_ifs with h
      · exact le_refl _
      · exact (not_lt.mp h)
    · exact ih _ z hz

theorem runMin_mem (init : ℝ) (l : List ℝ) : runMin init l ∈ init :: l := by
  induction l generalizing init with
  | nil => exact List.mem_singleton.mpr rfl
  | cons a l ih =>
    have h := ih (if a < init then a else init)
    rcases List.mem_cons.mp h with heq | hmem
    · show runMin (if a < init then a else init) l ∈ init :: a :: l
      rw [heq]
      split_ifs
      · exact List.mem_cons_of_mem _ (List.mem_cons_self _ _)
      · exact List.mem_cons_self _ _
    · exact List.mem_cons_of_mem _ (List.mem_cons_of_mem _ hmem)

theorem runMax_ge_init (init : ℝ) (l : List ℝ) : init ≤ runMax init l := by
  induction l generalizing init with
  | nil => exact le_refl _
  | cons a l ih =>
    show init ≤ runMax (if a > init then a else init) l
    refine le_trans ?_ (ih _)
    split_ifs with h
    · exact h.le
    · exact le_refl _

theorem runMax_ge_mem (init : ℝ) (l : List ℝ) : ∀ z ∈ l, z ≤ runMax init l := by
  induction l generalizing init with
  | nil => intro z hz; exact absurd hz (List.not_mem_nil z)
  | cons a l ih =>
    intro z hz
    rcases List.mem_cons.mp hz with rfl | hz
    · show z ≤ runMax (if z > init then z else init) l
      refine le_trans ?_ (runMax_ge_init _ _)
      split_ifs with h
      · exact le_refl _
      · exact (not_lt.mp h)
    · exact ih _ z hz

theorem runMax_mem (init : ℝ) (l : List ℝ) : runMax init l ∈ init :: l := by
  induction l generalizing init with
  | nil => exact List.mem_singleton.mpr rfl
  | cons a l ih =>
    have h := ih (if a > init then a else init)
    rcases List.mem_cons.mp h with heq | hmem
    · show runMax (if a > init then a else init) l ∈ init :: a :: l
      rw [heq]
      split_ifs
      · exact List.mem_cons_of_mem _ (List.mem_cons_self _ _)
      · exact List.mem_cons_self _ _
    · exact List.mem_cons_of_mem _ (List.mem_cons_of_mem _ hmem)

theorem abs_list_sum_le (l : List ℝ) : |l.sum| ≤ (l.map fun x => |x|).sum := by
  induction l with
  | nil => simp
  | cons a l ih =>
    simp only [List.sum_cons, List.map_cons]
    calc |a + l.sum| ≤ |a| + |l.sum| := abs_add _ _
      _ ≤ |a| + (l.map fun x => |x|).sum := by linarith

theorem gerstnerZ_eq (waves : List WaveParams) (x0 y0 t : ℝ) :
    (gerstnerWave waves x0 y0 t).2.2 =
      (waves.map fun wp =>
        wp.Amplitude * Real.sin (2 * Real.pi / wp.Wavelength *
          (wp.Direction.1 * x0 + wp.Direction.2 * y0) - wp.Speed * t)).sum := by
  unfold gerstnerWave
  rw [gerstner_foldl]
  exact zero_add _

/-- The grid height is bounded by the sum of the wave amplitudes. -/
theorem sampleZ_abs_le (cfg : Config) (waves : List WaveParams) (t : ℝ) (dw : ℕ × ℕ) :
    |sampleZ cfg waves t dw| ≤ (waves.map fun wp => |wp.Amplitude|).sum := by
  show |(gerstnerWave waves _ _ t).2.2| ≤ _
  rw [gerstnerZ_eq]
  refine (abs_list_sum_le _).trans ?_
  rw [List.map_map]
  refine List.sum_le_sum ?_
  intro wp _
  show |wp.Amplitude * Real.sin _| ≤ |wp.Amplitude|
  rw [abs_mul]
  exact mul_le_of_le_one_right (abs_nonneg _) (Real.abs_sin_le_one _)

theorem default_Amplitude : (default : WaveParams).Amplitude = 0 := rfl

theorem NewWave_ampsum (cfg : Config) (h : 3 ≤ cfg.WaveCount) :
    ((NewWave cfg).waves.map fun wp => |wp.Amplitude|).sum = 0.28 := by
  rw [NewWave_waves cfg h]
  simp only [List.map_cons, List.sum_cons, List.map_replicate,
    normalizeDir_Amplitude, default_Amplitude, abs_zero, List.sum_replicate,
    smul_zero, add_zero]
  show |wave0.Amplitude| + (|wave1.Amplitude| + |wave2.Amplitude|) = 0.28
  rw [show wave0.Amplitude = 0.15 from rfl, show wave1.Amplitude = 0.08 from rfl,
    show wave2.Amplitude = 0.05 from rfl]
  rw [abs_of_nonneg (by norm_num), abs_of_nonneg (by norm_num),
    abs_of_nonneg (by norm_num)]
  norm_num

theorem mem_gridIndices {D W : ℕ} {dw : ℕ × ℕ} :
    dw ∈ gridIndices D W ↔ dw.1 < D ∧ dw.2 < W := by
  obtain ⟨a, b⟩ := dw
  simp [gridIndices, List.mem_flatMap, List.mem_map, List.mem_range]

theorem addF_none_left (a : Option ℝ) : addF none a = none := by cases a <;> rfl

theorem addF_none_right (a : Option ℝ) : addF a none = none := by cases a <;> rfl

theorem subF_none_left (a : Option ℝ) : subF none a = none := by cases a <;> rfl

theorem mulF_none_left (a : Option ℝ) : mulF none a = none := by cases a <;> rfl

theorem mulF_none_right (a : Option ℝ) : mulF a none = none := by cases a <;> rfl

theorem sinF_none : sinF none = none := rfl

/-- With a NaN `x0`, one Gerstner step already makes the height NaN. -/
theorem gerstnerStepF_z_none (n : ℕ) (y0 t : Option ℝ)
    (acc : Option ℝ × Option ℝ × Option ℝ) (wp : WaveParams) :
    (gerstnerStepF n none y0 t acc wp).2.2 = none := by
  show addF acc.2.2 (mulF (some wp.Amplitude) (sinF _)) = none
  simp only [mulF_none_right, addF_none_left, subF_none_left, sinF_none,
    addF_none_right]

/-- A NaN height accumulator stays NaN through the rest of the fold. -/
theorem foldF_z_none (n : ℕ) (x0 y0 t : Option ℝ) (l : List WaveParams) :
    ∀ acc : Option ℝ × Option ℝ × Option ℝ, acc.2.2 = none →
      (l.foldl (gerstnerStepF n x0 y0 t) acc).2.2 = none := by
  induction l with
  | nil => intro acc h; exact h
  | cons wp l ih =>
    intro acc h
    rw [List.foldl_cons]
    refine ih _ ?_
    show addF acc.2.2 _ = none
    rw [h, addF_none_left]

/-- With a NaN `x0` (the `0.0/0.0` of a one-column grid), every height the
Gerstner model produces is NaN, for any nonempty wave list. -/
theorem gerstnerWaveF_z_none (waves : List WaveParams) (hne : waves ≠ [])
    (y0 t : Option ℝ) : (gerstnerWaveF waves none y0 t).2.2 = none := by
  obtain ⟨hd, tl, rfl⟩ := List.exists_cons_of_ne_nil hne
  show ((hd :: tl).foldl (gerstnerStepF _ none y0 t) (none, y0, some 0)).2.2 = none
  rw [List.foldl_cons]
  exact foldF_z_none _ _ _ _ tl _ (gerstnerStepF_z_none _ _ _ _ _)

/-- C4 counterexample: with the non-empty 1×1 grid (`GridWidth = 1`,
`GridDepth = 1`), Go computes `x0 = 0.0/0.0 = NaN` (surface.go line 117),
the sample height is NaN, the `z < MinZ` test is false so MinZ keeps the
`math.MaxFloat64` sentinel, and `MinZ ≤ z` fails — so the claim does not
hold for *every* configuration with a non-empty grid. (The real-number
model collapses `0/0` to 0 and cannot see this; the NaN-aware trace can.) -/
theorem C4_counterexample :
    samplePointZF ⟨1, 1, 0.3, 3⟩ (NewWave ⟨1, 1, 0.3, 3⟩).waves 0 0 0 = none ∧
    (if ltF (samplePointZF ⟨1, 1, 0.3, 3⟩ (NewWave ⟨1, 1, 0.3, 3⟩).waves 0 0 0)
        (some maxFloat64) then
      samplePointZF ⟨1, 1, 0.3, 3⟩ (NewWave ⟨1, 1, 0.3, 3⟩).waves 0 0 0
    else some maxFloat64) = some maxFloat64 ∧
    leF (some maxFloat64)
      (samplePointZF ⟨1, 1, 0.3, 3⟩ (NewWave ⟨1, 1, 0.3, 3⟩).waves 0 0 0) = false := by
  have hne : (NewWave (⟨1, 1, 0.3, 3⟩ : Config)).waves ≠ [] := by
    rw [NewWave_waves _ (by decide)]
    simp
  have hdiv : divF (some ((0 : ℕ) : ℝ))
      (some ((((⟨1, 1, 0.3, 3⟩ : Config).GridWidth : ℤ) - 1 : ℤ) : ℝ)) = none := by
    have hb : ((((⟨1, 1, 0.3, 3⟩ : Config).GridWidth : ℤ) - 1 : ℤ) : ℝ) = 0 := by
      push_cast
      norm_num
    simp [divF, hb]
  have hz : samplePointZF ⟨1, 1, 0.3, 3⟩ (NewWave ⟨1, 1, 0.3, 3⟩).waves 0 0 0 = none := by
    show (gerstnerWaveF (NewWave ⟨1, 1, 0.3, 3⟩).waves
      (subF (mulF (divF (some ((0 : ℕ) : ℝ))
        (some ((((⟨1, 1, 0.3, 3⟩ : Config).GridWidth : ℤ) - 1 : ℤ) : ℝ))) (some 2.0))
        (some 1.0)) _ (some 0)).2.2 = none
    rw [hdiv, mulF_none_left, subF_none_left]
    exact gerstnerWaveF_z_none _ hne _ _
  refine ⟨hz, ?_, ?_⟩
  · rw [hz]
    show (if ltF none (some maxFloat64) then (none : Option ℝ) else some maxFloat64) =
      some maxFloat64
    rfl
  · rw [hz]
    rfl

/-- C4 (amended): after `Update` on a freshly constructed wave whose
configuration avoids the NaN-producing divisions — both grid dimensions at
least 2 (else `x0`/`y0` is `0.0/0.0`, surface.go lines 117-118) and
`WaveCount = 3` exactly (extra components give `k = 2π/0` and a `0/0`
direction) — every stored grid point's z lies between MinZ and MaxZ, and
MinZ and MaxZ are attained by actual grid samples (they are the true
minimum and maximum). On the excluded degenerate configurations the
heights are NaN and MinZ/MaxZ keep the `±math.MaxFloat64` sentinels, as
`C4_counterexample` shows. -/
theorem C4_minZ_maxZ_bracket (cfg : Config) (t : ℝ) (h3 : cfg.WaveCount = 3)
    (hD : 2 ≤ cfg.GridDepth) (hW : 2 ≤ cfg.GridWidth) :
    (∀ row ∈ (Update (NewWave cfg) t).GridPoints, ∀ p ∈ row,
        (Update (NewWave cfg) t).MinZ ≤ p.Z ∧ p.Z ≤ (Update (NewWave cfg) t).MaxZ) ∧
    (∃ row ∈ (Update (NewWave cfg) t).GridPoints, ∃ p ∈ row,
        p.Z = (Update (NewWave cfg) t).MinZ) ∧
    (∃ row ∈ (Update (NewWave cfg) t).GridPoints, ∃ p ∈ row,
        p.Z = (Update (NewWave cfg) t).MaxZ) := by
  obtain ⟨hg, hmin, hmax, -⟩ := Update_char (NewWave cfg) t (wf_NewWave cfg)
  have hcfg : (NewWave cfg).config = cfg := rfl
  rw [hcfg] at hg hmin hmax
  have hzs_bound : ∀ z ∈ (gridIndices cfg.GridDepth cfg.GridWidth).map
      (sampleZ cfg (NewWave cfg).waves t), |z| ≤ 0.28 := by
    intro z hz
    obtain ⟨dw, _, rfl⟩ := List.mem_map.mp hz
    exact (sampleZ_abs_le cfg (NewWave cfg).waves t dw).trans_eq (NewWave_ampsum cfg (by omega))
  have hz00 : sampleZ cfg (NewWave cfg).waves t (0, 0) ∈
      (gridIndices cfg.GridDepth cfg.GridWidth).map (sampleZ cfg (NewWave cfg).waves t) :=
    List.mem_map_of_mem _ (mem_gridIndices.mpr ⟨by omega, by omega⟩)
  refine ⟨?_, ?_, ?_⟩
  · intro row hrow p hp
    rw [hg] at hrow
    obtain ⟨d, hd, rfl⟩ := List.mem_map.mp hrow
    obtain ⟨j, hj, rfl⟩ := List.mem_map.mp hp
    have hdw : ((d, j) : ℕ × ℕ) ∈ gridIndices cfg.GridDepth cfg.GridWidth :=
      mem_gridIndices.mpr ⟨List.mem_range.mp hd, List.mem_range.mp hj⟩
    have hzmem : sampleZ cfg (NewWave cfg).waves t (d, j) ∈
        (gridIndices cfg.GridDepth cfg.GridWidth).map (sampleZ cfg (NewWave cfg).waves t) :=
      List.mem_map_of_mem _ hdw
    constructor
    · rw [hmin]
      exact runMin_le_mem _ _ _ hzmem
    · rw [hmax]
      exact runMax_ge_mem _ _ _ hzmem
  · rw [hg, hmin]
    have hm := runMin_mem maxFloat64
      ((gridIndices cfg.GridDepth cfg.GridWidth).map (sampleZ cfg (NewWave cfg).waves t))
    rcases List.mem_cons.mp hm with heq | hmem
    · exfalso
      have h1 : runMin maxFloat64
          ((gridIndices cfg.GridDepth cfg.GridWidth).map (sampleZ cfg (NewWave cfg).waves t)) ≤
          sampleZ cfg (NewWave cfg).waves t (0, 0) := runMin_le_mem _ _ _ hz00
      have h2 : sampleZ cfg (NewWave cfg).waves t (0, 0) ≤ 0.28 :=
        (le_abs_self _).trans (hzs_bound _ hz00)
      rw [heq] at h1
      have : maxFloat64 ≤ 0.28 := h1.trans h2
      norm_num [maxFloat64] at this
    · obtain ⟨dw, hdw, hzeq⟩ := List.mem_map.mp hmem
      obtain ⟨d, j⟩ := dw
      obtain ⟨hd, hj⟩ := mem_gridIndices.mp hdw
      exact ⟨(List.range cfg.GridWidth).map (samplePoint cfg (NewWave cfg).waves t d),
        List.mem_map_of_mem _ (List.mem_range.mpr hd),
        samplePoint cfg (NewWave cfg).waves t d j,
        List.mem_map_of_mem _ (List.mem_range.mpr hj), hzeq⟩
  · rw [hg, hmax]
    have hm := runMax_mem (-maxFloat64)
      ((gridIndices cfg.GridDepth cfg.GridWidth).map (sampleZ cfg (NewWave cfg).waves t))
    rcases List.mem_cons.mp hm with heq | hmem
    · exfalso
      have h1 : sampleZ cfg (NewWave cfg).waves t (0, 0) ≤ runMax (-maxFloat64)
          ((gridIndices cfg.GridDepth cfg.GridWidth).map (sampleZ cfg (NewWave cfg).waves t)) :=
        runMax_ge_mem _ _ _ hz00
      have h2 : (-0.28 : ℝ) ≤ sampleZ cfg (NewWave cfg).waves t (0, 0) := by
        have := (abs_le.mp (hzs_bound _ hz00)).1
        linarith
      rw [heq] at h1
      have : (-0.28 : ℝ) ≤ -maxFloat64 := h2.trans h1
      norm_num [maxFloat64] at this
    · obtain ⟨dw, hdw, hzeq⟩ := List.mem_map.mp hmem
      obtain ⟨d, j⟩ := dw
      obtain ⟨hd, hj⟩ := mem_gridIndices.mp hdw
      exact ⟨(List.range cfg.GridWidth).map (samplePoint cfg (NewWave cfg).waves t d),
        List.mem_map_of_mem _ (List.mem_range.mpr hd),
        samplePoint cfg (NewWave cfg).waves t d j,
        List.mem_map_of_mem _ (List.mem_range.mpr hj), hzeq⟩

theorem C4_minZ_maxZ_bracket_witness :
    ((⟨4, 4, 0.3, 3⟩ : Config).WaveCount = 3 ∧
        2 ≤ (⟨4, 4, 0.3, 3⟩ : Config).GridDepth ∧
        2 ≤ (⟨4, 4, 0.3, 3⟩ : Config).GridWidth) ∧
      ((∀ row ∈ (Update (NewWave ⟨4, 4, 0.3, 3⟩) 0).GridPoints, ∀ p ∈ row,
          (Update (NewWave ⟨4, 4, 0.3, 3⟩) 0).MinZ ≤ p.Z ∧
            p.Z ≤ (Update (NewWave ⟨4, 4, 0.3, 3⟩) 0).MaxZ) ∧
       (∃ row ∈ (Update (NewWave ⟨4, 4, 0.3, 3⟩) 0).GridPoints, ∃ p ∈ row,
          p.Z = (Update (NewWave ⟨4, 4, 0.3, 3⟩) 0).MinZ) ∧
       (∃ row ∈ (Update (NewWave ⟨4, 4, 0.3, 3⟩) 0).GridPoints, ∃ p ∈ row,
          p.Z = (Update (NewWave ⟨4, 4, 0.3, 3⟩) 0).MaxZ)) :=
  ⟨⟨by decide, by decide, by decide⟩,
   C4_minZ_maxZ_bracket ⟨4, 4, 0.3, 3⟩ 0 (by decide) (by decide) (by decide)⟩

theorem proj_origin_Clear10 :
    project3D (Renderer.Clear (NewRenderer 10 10)) ⟨0, 0, 0⟩ = (5, 5, 0) := by
  unfold project3D Renderer.Clear NewRenderer
  simp only
  rw [show (10 : ℤ) = ((10 : ℤ)) from rfl]
  have hX : goTrunc (((10 : ℤ) : ℝ) / 2 + 0 * (((10 : ℤ) : ℝ) * scaleXFactor)) = 5 := by
    unfold goTrunc
    rw [if_neg (by push_cast; norm_num [scaleXFactor])]
    rw [show ((10 : ℤ) : ℝ) / 2 + 0 * (((10 : ℤ) : ℝ) * scaleXFactor) = ((5 : ℤ) : ℝ) by
      push_cast; norm_num]
    exact Int.floor_intCast 5
  have hY : goTrunc (((10 : ℤ) : ℝ) / 2 - 0 * (((10 : ℤ) : ℝ) * scaleYFactor) -
      0 * (((10 : ℤ) : ℝ) * scaleYFactor) * perspectiveY) = 5 := by
    unfold goTrunc
    rw [if_neg (by push_cast; norm_num [scaleYFactor, perspectiveY])]
    rw [show ((10 : ℤ) : ℝ) / 2 - 0 * (((10 : ℤ) : ℝ) * scaleYFactor) -
        0 * (((10 : ℤ) : ℝ) * scaleYFactor) * perspectiveY = ((5 : ℤ) : ℝ) by
      push_cast; norm_num]
    exact Int.floor_intCast 5
  rw [hX, hY]
  norm_num [depthZFactor]

/-- C5: in the Gerstner-variant frame composition, the particle pass runs
after the whole grid pass; each particle is projected and written through
the ordinary depth-tested `setCell` with the dedicated glyph and the fixed
bright colour, so a particle replaces a cell exactly when its depth
strictly exceeds the stored depth. -/
theorem C5_particles_after_grid :
    (∀ (r : Renderer) (w : Wave),
        RenderGerstnerWave r w = renderParticles (RenderWave r w) w.Particles) ∧
    (∀ (r : Renderer) (ps : List Particle) (p : Particle),
        renderParticles r (ps ++ [p]) =
          setCell (renderParticles r ps)
            (project3D (renderParticles r ps) p.Pos).1
            (project3D (renderParticles r ps) p.Pos).2.1 particleChar
            (project3D (renderParticles r ps) p.Pos).2.2 particleStyle) ∧
    (∀ (r : Renderer) (p : Particle), wfRenderer r →
        0 ≤ (project3D r p.Pos).1 → (project3D r p.Pos).1 < r.width →
        0 ≤ (project3D r p.Pos).2.1 → (project3D r p.Pos).2.1 < r.height →
        readCell (renderParticle r p) (project3D r p.Pos).1 (project3D r p.Pos).2.1 =
          if (project3D r p.Pos).2.2 >
              (readCell r (project3D r p.Pos).1 (project3D r p.Pos).2.1).depth then
            { char := particleChar, style := particleStyle,
              depth := (project3D r p.Pos).2.2, set := true }
          else readCell r (project3D r p.Pos).1 (project3D r p.Pos).2.1) := by
  refine ⟨fun r w => rfl, fun r ps p => ?_, fun r p hw h1 h2 h3 h4 => ?_⟩
  · show (ps ++ [p]).foldl renderParticle r = _
    rw [List.foldl_append, List.foldl_cons, List.foldl_nil]
    rfl
  · exact readCell_setCell r _ _ particleChar _ particleStyle hw h1 h2 h3 h4

theorem C5_particles_after_grid_witness :
    (wfRenderer (Renderer.Clear (NewRenderer 10 10)) ∧
     0 ≤ (project3D (Renderer.Clear (NewRenderer 10 10))
        (Particle.mk ⟨0, 0, 0⟩ 0).Pos).1 ∧
     (project3D (Renderer.Clear (NewRenderer 10 10))
        (Particle.mk ⟨0, 0, 0⟩ 0).Pos).1 < (Renderer.Clear (NewRenderer 10 10)).width ∧
     0 ≤ (project3D (Renderer.Clear (NewRenderer 10 10))
        (Particle.mk ⟨0, 0, 0⟩ 0).Pos).2.1 ∧
     (project3D (Renderer.Clear (NewRenderer 10 10))
        (Particle.mk ⟨0, 0, 0⟩ 0).Pos).2.1 < (Renderer.Clear (NewRenderer 10 10)).height) ∧
    readCell (renderParticle (Renderer.Clear (NewRenderer 10 10)) (Particle.mk ⟨0, 0, 0⟩ 0))
        (project3D (Renderer.Clear (NewRenderer 10 10)) (Particle.mk ⟨0, 0, 0⟩ 0).Pos).1
        (project3D (Renderer.Clear (NewRenderer 10 10)) (Particle.mk ⟨0, 0, 0⟩ 0).Pos).2.1 =
      if (project3D (Renderer.Clear (NewRenderer 10 10)) (Particle.mk ⟨0, 0, 0⟩ 0).Pos).2.2 >
          (readCell (Renderer.Clear (NewRenderer 10 10))
            (project3D (Renderer.Clear (NewRenderer 10 10)) (Particle.mk ⟨0, 0, 0⟩ 0).Pos).1
            (project3D (Renderer.Clear (NewRenderer 10 10))
              (Particle.mk ⟨0, 0, 0⟩ 0).Pos).2.1).depth then
        { char := particleChar, style := particleStyle,
          depth := (project3D (Renderer.Clear (NewRenderer 10 10))
            (Particle.mk ⟨0, 0, 0⟩ 0).Pos).2.2, set := true }
      else readCell (Renderer.Clear (NewRenderer 10 10))
        (project3D (Renderer.Clear (NewRenderer 10 10)) (Particle.mk ⟨0, 0, 0⟩ 0).Pos).1
        (project3D (Renderer.Clear (NewRenderer 10 10)) (Particle.mk ⟨0, 0, 0⟩ 0).Pos).2.1 :=
  ⟨⟨wf_Clear _ (wf_NewRenderer 10 10),
    by rw [show (Particle.mk (⟨0, 0, 0⟩ : Point3D) 0).Pos = ⟨0, 0, 0⟩ from rfl,
      proj_origin_Clear10]; decide,
    by rw [show (Particle.mk (⟨0, 0, 0⟩ : Point3D) 0).Pos = ⟨0, 0, 0⟩ from rfl,
      proj_origin_Clear10]; decide,
    by rw [show (Particle.mk (⟨0, 0, 0⟩ : Point3D) 0).Pos = ⟨0, 0, 0⟩ from rfl,
      proj_origin_Clear10]; decide,
    by rw [show (Particle.mk (⟨0, 0, 0⟩ : Point3D) 0).Pos = ⟨0, 0, 0⟩ from rfl,
      proj_origin_Clear10]; decide⟩,
   C5_particles_after_grid.2.2 (Renderer.Clear (NewRenderer 10 10))
     (Particle.mk ⟨0, 0, 0⟩ 0) (wf_Clear _ (wf_NewRenderer 10 10))
     (by rw [show (Particle.mk (⟨0, 0, 0⟩ : Point3D) 0).Pos = ⟨0, 0, 0⟩ from rfl,
        proj_origin_Clear10]; decide)
     (by rw [show (Particle.mk (⟨0, 0, 0⟩ : Point3D) 0).Pos = ⟨0, 0, 0⟩ from rfl,
        proj_origin_Clear10]; decide)
     (by rw [show (Particle.mk (⟨0, 0, 0⟩ : Point3D) 0).Pos = ⟨0, 0, 0⟩ from rfl,
        proj_origin_Clear10]; decide)
     (by rw [show (Particle.mk (⟨0, 0, 0⟩ : Point3D) 0).Pos = ⟨0, 0, 0⟩ from rfl,
        proj_origin_Clear10]; decide)⟩

end Screensaver
